import Mathlib

/-!
# Metrics dashboard (`dashboard.js`): embedding and verified properties

The script has two functions, `formatTimestamp` and `loadMetrics`.  They are
embedded here as pure Lean functions over

* `JSVal`, the values a decoded JSON payload (or any caller) can hand to the
  script;
* the ECMA-262 built-ins the script calls (`ToBoolean`, `ToString`,
  `ToPrimitive`, `Number::toString`, the `Date` constructor, the `getUTC*`
  getters, `toISOString`, `String.prototype.padStart`), with the TypeError and
  RangeError they can raise;
* `Display`, the text of the seven elements the script writes to and the rows
  of the `joinWatermarkTable` element, passed explicitly from statement to
  statement.

Numbers.  The script's Numbers are IEEE doubles.  `JSVal.num n` is an integral
Number below `2^53` in absolute value, where a double holds the integer
exactly and prints it digit for digit.  `JSVal.nan` is NaN.  Every other
Number (a fraction, an integer from `2^53` on, an infinity) is a
`JSVal.float`, known by the two things the script can observe of it: the
string `Number::toString` gives it and the time value `TimeClip` gives it.

Pieces of the environment that are not in the script are explicit:
`Date.parse` (partly implementation-defined in ECMA-262) is the parameter
`parse`; the outcome of `fetch` and `response.json()` is a `FetchOutcome`; the
page is assumed to provide the eight elements the script looks up by id.
-/

namespace Dashboard

/-! ## Values -/

/-- An integral Number that a double holds exactly: an integer below `2^53` in
absolute value. -/
structure SafeInteger where
  val : Int
  safe : val.natAbs < 9007199254740992

/-- The Number 0. -/
def SafeInteger.zero : SafeInteger := ⟨0, by decide⟩

/-- Values of the script: the JSON value space, plus `undefined` (an absent
property) and NaN.  `float text clip` is a Number that is neither NaN nor a
safe integer: `text` is its `Number::toString` and `clip` the time value
`TimeClip` gives it (the Number truncated toward zero, or `none` for NaN when
it lies beyond 8.64e15). -/
inductive JSVal where
  | undefined
  | null
  | bool (b : Bool)
  | nan
  | num (n : SafeInteger)
  | float (text : String) (clip : Option Int)
  | str (s : String)
  | arr (xs : List JSVal)
  | obj (fields : List (String × JSVal))

/-- Exceptions the script can raise. -/
inductive JSError where
  | typeError
  | rangeError
  deriving DecidableEq, Repr

/-- Equality of results is decidable, so that closed facts about them can be
evaluated. -/
instance decEqExcept {ε α : Type} [DecidableEq ε] [DecidableEq α] : DecidableEq (Except ε α)
  | .ok a, .ok b =>
    if h : a = b then isTrue (by rw [h]) else isFalse (fun h2 => h (Except.ok.inj h2))
  | .error a, .error b =>
    if h : a = b then isTrue (by rw [h]) else isFalse (fun h2 => h (Except.error.inj h2))
  | .ok _, .error _ => isFalse (fun h => by cases h)
  | .error _, .ok _ => isFalse (fun h => by cases h)

/-- ToBoolean: the test performed by `!ts`, `c ? a : b` and `a || b`. -/
def JSVal.truthy : JSVal → Bool
  | .undefined => false
  | .null => false
  | .bool b => b
  | .nan => false
  | .num n => decide (n.val ≠ 0)
  | .float _ _ => true
  | .str s => decide (s ≠ "")
  | .arr _ => true
  | .obj _ => true

/-- The test of `??`: the value is `undefined` or `null`. -/
def JSVal.isNullish : JSVal → Bool
  | .undefined => true
  | .null => true
  | _ => false

/-- The value is a primitive: not an array and not an object. -/
def JSVal.isPrimitive : JSVal → Bool
  | .arr _ => false
  | .obj _ => false
  | _ => true

/-- The expression `a ?? b`. -/
def nullishOr (a b : JSVal) : JSVal := if a.isNullish then b else a

/-- The expression `a || b`. -/
def logicalOr (a b : JSVal) : JSVal := if a.truthy then a else b

/-- Property read `v.name`: a TypeError on `undefined` and `null`, the own
property of an object (`undefined` when absent), and `undefined` on every other
value (none of the names the script reads is a prototype property). -/
def JSVal.getProp : JSVal → String → Except JSError JSVal
  | .undefined, _ => .error .typeError
  | .null, _ => .error .typeError
  | .obj fields, name => .ok ((fields.lookup name).getD .undefined)
  | _, _ => .ok .undefined

/-! ## Number and value to string -/

/-- The code unit of a decimal digit. -/
def digitChar (d : Nat) : Char := Char.ofNat (48 + d)

/-- Decimal digits of a natural number, most significant first; `fuel` bounds
the recursion and `n + 1` always suffices. -/
def natDigitsFuel : Nat → Nat → List Char
  | 0, _ => []
  | fuel + 1, n =>
    if n < 10 then [digitChar n] else natDigitsFuel fuel (n / 10) ++ [digitChar (n % 10)]

/-- Decimal digits of a natural number. -/
def natDigits (n : Nat) : List Char := natDigitsFuel (n + 1) n

/-- Number::toString(x, 10) on a safe integer: the decimal digits, after a
minus sign for a negative number.  The script applies it to safe integers only:
the `num` values and the results of the Date getters. -/
def numberToString (n : Int) : String :=
  if n < 0 then "-" ++ String.mk (natDigits n.natAbs) else String.mk (natDigits n.natAbs)

/-- String of a Date getter result, NaN (`none`) on an Invalid Date. -/
def numStr : Option Int → String
  | none => "NaN"
  | some n => numberToString n

mutual
/-- ToString, which raises a TypeError when no primitive can be had from an
object.  With `inArray = true` it is the element conversion of
`Array.prototype.join`, which turns `undefined` and `null` into the empty
string.  An array converts to its elements joined by commas.  A decoded object
converts to `[object Object]` through `Object.prototype.toString`, unless it has
an own property `toString`: a decoded value is never callable, so neither
`toString` nor `valueOf` yields a primitive and OrdinaryToPrimitive raises. -/
def JSVal.toStrAux : Bool → JSVal → Except JSError String
  | true, .undefined => .ok ""
  | true, .null => .ok ""
  | false, .undefined => .ok "undefined"
  | false, .null => .ok "null"
  | _, .bool true => .ok "true"
  | _, .bool false => .ok "false"
  | _, .nan => .ok "NaN"
  | _, .num n => .ok (numberToString n.val)
  | _, .float text _ => .ok text
  | _, .str s => .ok s
  | _, .arr xs => joinElems xs
  | _, .obj fields =>
    if (fields.lookup "toString").isSome then .error .typeError else .ok "[object Object]"
/-- The elements of an array joined by commas, as `Array.prototype.join` does;
the first element that cannot be converted raises. -/
def joinElems : List JSVal → Except JSError String
  | [] => .ok ""
  | [x] => JSVal.toStrAux true x
  | x :: y :: rest =>
    match JSVal.toStrAux true x with
    | .error e => .error e
    | .ok first =>
      match joinElems (y :: rest) with
      | .error e => .error e
      | .ok others => .ok (first ++ "," ++ others)
end

/-- ToString of a value. -/
def JSVal.toStr (v : JSVal) : Except JSError String := JSVal.toStrAux false v

/-- Method `String.prototype.padStart(targetLength, fill)` with a one-character fill
string: the string itself when it is long enough, otherwise filled on the left. -/
def padStart (s : String) (targetLength : Nat) (fill : Char) : String :=
  String.mk (List.replicate (targetLength - s.length) fill) ++ s

/-! ## Dates (ECMA-262, "Time Values and Time Range" onwards) -/

def msPerDay : Int := 86400000

def msPerHour : Int := 3600000

def msPerMinute : Int := 60000

def msPerSecond : Int := 1000

/-- Day(t) = floor(t / msPerDay). -/
def Day (t : Int) : Int := t / msPerDay

/-- DaysInYear(y). -/
def DaysInYear (y : Int) : Int :=
  if y % 4 ≠ 0 then 365
  else if y % 100 ≠ 0 then 366
  else if y % 400 ≠ 0 then 365
  else 366

/-- DayFromYear(y): the day number of the first day of year `y`. -/
def DayFromYear (y : Int) : Int :=
  365 * (y - 1970) + (y - 1969) / 4 - (y - 1901) / 100 + (y - 1601) / 400

/-- TimeFromYear(y). -/
def TimeFromYear (y : Int) : Int := msPerDay * DayFromYear y

/-- YearFromTime(t): ECMA-262 defines it as the largest `y` with
`TimeFromYear(y) ≤ t`.  It is computed from the estimate
`1970 + floor(400 * Day(t) / 146097)`, which is off by at most one;
`YearFromTime_spec` and `YearFromTime_largest` prove the defining property. -/
def YearFromTime (t : Int) : Int :=
  let y := 1970 + (400 * Day t) / 146097
  if t < TimeFromYear y then y - 1
  else if TimeFromYear (y + 1) ≤ t then y + 1
  else y

/-- InLeapYear(t). -/
def InLeapYear (t : Int) : Int := if DaysInYear (YearFromTime t) = 366 then 1 else 0

/-- DayWithinYear(t). -/
def DayWithinYear (t : Int) : Int := Day t - DayFromYear (YearFromTime t)

/-- The table of MonthFromTime: the month (January being 0) in which day `d`
of a year falls, `leap` being InLeapYear. -/
def monthOfDay (d leap : Int) : Int :=
  if d < 31 then 0
  else if d < 59 + leap then 1
  else if d < 90 + leap then 2
  else if d < 120 + leap then 3
  else if d < 151 + leap then 4
  else if d < 181 + leap then 5
  else if d < 212 + leap then 6
  else if d < 243 + leap then 7
  else if d < 273 + leap then 8
  else if d < 304 + leap then 9
  else if d < 334 + leap then 10
  else 11

/-- MonthFromTime(t), January being 0. -/
def MonthFromTime (t : Int) : Int := monthOfDay (DayWithinYear t) (InLeapYear t)

/-- The table of DateFromTime: the day of month `m` that day `d` of the year
is. -/
def dateOfDay (m d leap : Int) : Int :=
  if m = 0 then d + 1
  else if m = 1 then d - 30
  else if m = 2 then d - 58 - leap
  else if m = 3 then d - 89 - leap
  else if m = 4 then d - 119 - leap
  else if m = 5 then d - 150 - leap
  else if m = 6 then d - 180 - leap
  else if m = 7 then d - 211 - leap
  else if m = 8 then d - 242 - leap
  else if m = 9 then d - 272 - leap
  else if m = 10 then d - 303 - leap
  else d - 333 - leap

/-- DateFromTime(t): the day of the month, from 1. -/
def DateFromTime (t : Int) : Int :=
  dateOfDay (MonthFromTime t) (DayWithinYear t) (InLeapYear t)

/-- HourFromTime(t). -/
def HourFromTime (t : Int) : Int := (t / msPerHour) % 24

/-- MinFromTime(t). -/
def MinFromTime (t : Int) : Int := (t / msPerMinute) % 60

/-- SecFromTime(t). -/
def SecFromTime (t : Int) : Int := (t / msPerSecond) % 60

/-- The function msFromTime(t). -/
def msFromTime (t : Int) : Int := t % msPerSecond

/-- ToNumber of a primitive that is not a string, followed by the truncation
TimeClip starts with; `none` is NaN. -/
def ToNumber : JSVal → Option Int
  | .null => some 0
  | .bool true => some 1
  | .bool false => some 0
  | .num n => some n.val
  | .float _ clip => clip
  | _ => none

/-- TimeClip: NaN when the time is NaN or beyond 8.64e15 ms from the epoch. -/
def TimeClip : Option Int → Option Int
  | none => none
  | some t => if t.natAbs > 8640000000000000 then none else some t

/-- Constructor `new Date(value)`: the time value of the new Date object, `none` for an
Invalid Date.  The value goes through ToPrimitive first: a string is parsed by
`Date.parse`; an array or object is converted to its primitive string, which
raises a TypeError when there is none, and that string is parsed; every other
value goes through ToNumber. -/
def newDate (parse : String → Option Int) (value : JSVal) : Except JSError (Option Int) :=
  match value with
  | .str s => .ok (TimeClip (parse s))
  | .arr xs =>
    match (JSVal.arr xs).toStr with
    | .error e => .error e
    | .ok s => .ok (TimeClip (parse s))
  | .obj fields =>
    match (JSVal.obj fields).toStr with
    | .error e => .error e
    | .ok s => .ok (TimeClip (parse s))
  | v => .ok (TimeClip (ToNumber v))

/-- Method `getUTCFullYear()`: NaN on an Invalid Date. -/
def getUTCFullYear (d : Option Int) : Option Int := d.map YearFromTime

def getUTCMonth (d : Option Int) : Option Int := d.map MonthFromTime

def getUTCDate (d : Option Int) : Option Int := d.map DateFromTime

def getUTCHours (d : Option Int) : Option Int := d.map HourFromTime

def getUTCMinutes (d : Option Int) : Option Int := d.map MinFromTime

def getUTCSeconds (d : Option Int) : Option Int := d.map SecFromTime

/-- A non-negative field padded with zeros to `width` digits, as the Date Time
String Format writes it. -/
def zeroPad (width : Nat) (n : Int) : String := padStart (numberToString n) width '0'

/-- The year of the Date Time String Format: four digits for 0 to 9999,
otherwise a sign and six digits. -/
def isoYear (y : Int) : String :=
  if 0 ≤ y ∧ y ≤ 9999 then zeroPad 4 y
  else if y < 0 then "-" ++ zeroPad 6 (-y)
  else "+" ++ zeroPad 6 y

/-- Method `toISOString()`: a RangeError on an Invalid Date, otherwise
`YYYY-MM-DDTHH:mm:ss.sssZ` in UTC. -/
def toISOString (d : Option Int) : Except JSError String :=
  match d with
  | none => .error .rangeError
  | some t =>
    .ok (isoYear (YearFromTime t) ++ "-" ++ zeroPad 2 (MonthFromTime t + 1) ++ "-" ++
      zeroPad 2 (DateFromTime t) ++ "T" ++ zeroPad 2 (HourFromTime t) ++ ":" ++
      zeroPad 2 (MinFromTime t) ++ ":" ++ zeroPad 2 (SecFromTime t) ++ "." ++
      zeroPad 3 (msFromTime t) ++ "Z")

/-! ## `formatTimestamp` -/

/-- The placeholder the script shows for a missing value. -/
def placeholder : String := "—"

/-- Source, lines 6-14: the string built from the Date `d`. -/
def formatDate (d : Option Int) : String :=
  let yyyy := getUTCFullYear d
  let mm := padStart (numStr ((getUTCMonth d).map (fun m => m + 1))) 2 '0'
  let dd := padStart (numStr (getUTCDate d)) 2 '0'
  let hh := padStart (numStr (getUTCHours d)) 2 '0'
  let min := padStart (numStr (getUTCMinutes d)) 2 '0'
  let ss := padStart (numStr (getUTCSeconds d)) 2 '0'
  numStr yyyy ++ "-" ++ mm ++ "-" ++ dd ++ " " ++ hh ++ ":" ++ min ++ ":" ++ ss

/-- Source: `function formatTimestamp(ts)`, lines 1-15.  The result is the
string returned, or the exception `new Date(ts)` raises. -/
def formatTimestamp (parse : String → Option Int) (ts : JSVal) : Except JSError String :=
  if !ts.truthy then .ok placeholder
  else
    match newDate parse ts with
    | .error e => .error e
    | .ok d => .ok (formatDate d)

/-! ## The page -/

/-- The seven elements whose `textContent` the script writes. -/
inductive Target where
  | clicksReceived
  | pageViewsReceived
  | pageViewsEmitted
  | pageViewsUpdated
  | clickStateSize
  | pageViewStateSize
  | lastUpdatedAt
  deriving DecidableEq, Repr

/-- The element id, which is also the name of the snapshot field shown there. -/
def Target.id : Target → String
  | .clicksReceived => "clicksReceived"
  | .pageViewsReceived => "pageViewsReceived"
  | .pageViewsEmitted => "pageViewsEmitted"
  | .pageViewsUpdated => "pageViewsUpdated"
  | .clickStateSize => "clickStateSize"
  | .pageViewStateSize => "pageViewStateSize"
  | .lastUpdatedAt => "lastUpdatedAt"

/-- The six counter and state-size elements. -/
def Target.isCounter : Target → Bool
  | .lastUpdatedAt => false
  | _ => true

/-- What the page shows: the text of each element and the rows of
`joinWatermarkTable`, each row being the text of its cells. -/
structure Display where
  textContent : Target → String
  joinWatermarkTable : List (List String)

/-- Assignment `document.getElementById(id).textContent = text`. -/
def Display.setText (dom : Display) (t : Target) (text : String) : Display :=
  { dom with textContent := fun u => if u = t then text else dom.textContent u }

/-- Assignment `table.innerHTML = ''`. -/
def Display.clearTable (dom : Display) : Display :=
  { dom with joinWatermarkTable := [] }

/-- Call `table.appendChild(row)`. -/
def Display.appendRow (dom : Display) (row : List String) : Display :=
  { dom with joinWatermarkTable := dom.joinWatermarkTable ++ [row] }

/-- The string a `textContent` setter stores: the empty string for `null` and
`undefined`, ToString of any other value, which can raise. -/
def textOf (v : JSVal) : Except JSError String := if v.isNullish then .ok "" else v.toStr

/-! ## `loadMetrics` -/

/-- The state of the page and the exception, if any, that ended the run. -/
abbrev Run := Display × Option JSError

/-- Sequencing of statements: the next one runs unless an exception is
pending; what was written before the exception stays written. -/
def Run.next (r : Run) (stmt : Display → Run) : Run :=
  match r with
  | (dom, none) => stmt dom
  | (dom, some e) => (dom, some e)

/-- Assignment `document.getElementById(id).textContent = value`, `text` being
the string of the value: nothing is written when evaluating the value or
converting it to a string raises. -/
def assignText (t : Target) (text : Except JSError String) (dom : Display) : Run :=
  match text with
  | .error e => (dom, some e)
  | .ok s => (dom.setText t s, none)

/-- Source, lines 23-40: the string of `data[id] ?? 0` for one counter. -/
def counterText (data : JSVal) (t : Target) : Except JSError String :=
  match data.getProp t.id with
  | .error e => .error e
  | .ok v => textOf (nullishOr v (.num SafeInteger.zero))

/-- Source, lines 23-40, one counter:
`document.getElementById(id).textContent = data[id] ?? 0`. -/
def writeCounter (data : JSVal) (t : Target) (dom : Display) : Run :=
  assignText t (counterText data t) dom

/-- Source, lines 22-40: the six counter and state-size writes, in order. -/
def writeCounters (data : JSVal) (dom : Display) : Run :=
  (writeCounter data .clicksReceived dom)
    |>.next (writeCounter data .pageViewsReceived)
    |>.next (writeCounter data .pageViewsEmitted)
    |>.next (writeCounter data .pageViewsUpdated)
    |>.next (writeCounter data .clickStateSize)
    |>.next (writeCounter data .pageViewStateSize)

/-- Source, lines 43-46: the text for `lastUpdatedAt`,
`data.lastUpdatedAt ? new Date(data.lastUpdatedAt).toISOString() : '—'`. -/
def lastUpdatedText (parse : String → Option Int) (data : JSVal) : Except JSError String :=
  match data.getProp "lastUpdatedAt" with
  | .error e => .error e
  | .ok v =>
    if v.truthy then
      match newDate parse v with
      | .error e => .error e
      | .ok d => toISOString d
    else .ok placeholder

/-- Source, lines 43-46: the write to the `lastUpdatedAt` element. -/
def writeLastUpdated (parse : String → Option Int) (data : JSVal) (dom : Display) : Run :=
  assignText .lastUpdatedAt (lastUpdatedText parse data) dom

/-- Source, lines 55-59: `cell(value)`, the text of the new `td`. -/
def cell (value : JSVal) : Except JSError String :=
  textOf (nullishOr value (.str placeholder))

/-- Source, lines 63-79: one of the three timestamp cells,
`cell(x ? formatTimestamp(x) : '—')`. -/
def timeCell (parse : String → Option Int) (x : JSVal) : Except JSError String :=
  if x.truthy then
    match formatTimestamp parse x with
    | .error e => .error e
    | .ok s => cell (.str s)
  else cell (.str placeholder)

/-- Source, lines 53-79: the row built for one entry `wm`, as the text of its
cells in the order they are appended; an exception leaves no row. -/
def buildRow (parse : String → Option Int) (wm : JSVal) : Except JSError (List String) := do
  let partition ← wm.getProp "partition"
  let c1 ← cell partition
  let pageViews ← wm.getProp "pageViewsMaxEventTime"
  let c2 ← timeCell parse pageViews
  let adClicks ← wm.getProp "adClicksMaxEventTime"
  let c3 ← timeCell parse adClicks
  let joinWatermark ← wm.getProp "joinWatermark"
  let c4 ← timeCell parse joinWatermark
  pure [c1, c2, c3, c4]

/-- Source, lines 52-82: the `forEach` loop; an exception in the callback ends
the loop and leaves the rows appended so far. -/
def appendRows (parse : String → Option Int) : List JSVal → Display → Run
  | [], dom => (dom, none)
  | wm :: rest, dom =>
    match buildRow parse wm with
    | .error e => (dom, some e)
    | .ok row => appendRows parse rest (dom.appendRow row)

/-- Source, lines 49-82: the table is emptied, then
`(data.joinWatermarks || []).forEach(...)` runs; calling `forEach` on a value
that is not an array is a TypeError. -/
def rebuildTable (parse : String → Option Int) (data : JSVal) (dom : Display) : Run :=
  let dom := dom.clearTable
  match data.getProp "joinWatermarks" with
  | .error e => (dom, some e)
  | .ok v =>
    match logicalOr v (.arr []) with
    | .arr xs => appendRows parse xs dom
    | _ => (dom, some .typeError)

/-- Source, lines 22-82: the statements of the `try` block that follow the
decoding, run on the decoded value `data`. -/
def render (parse : String → Option Int) (data : JSVal) (dom : Display) : Run :=
  (writeCounters data dom)
    |>.next (writeLastUpdated parse data)
    |>.next (rebuildTable parse data)

/-- What `await fetch('/metrics')` and `await response.json()` produce: the
fetch rejects, the body does not decode as JSON, or a value is decoded. -/
inductive FetchOutcome where
  | fetchRejected
  | jsonRejected
  | decoded (data : JSVal)

/-- What the `catch` clause receives. -/
inductive Failure where
  | fetchFailed
  | decodeFailed
  | thrown (e : JSError)
  deriving DecidableEq, Repr

/-- The result of one call of `loadMetrics`: the page afterwards, what was
passed to `console.error`, and the rejection of the returned promise, if any. -/
structure Cycle where
  display : Display
  logged : List Failure
  rejection : Option Failure

/-- Source, lines 18-83: the `try` block. -/
def tryBlock (parse : String → Option Int) (outcome : FetchOutcome) (dom : Display) :
    Display × Option Failure :=
  match outcome with
  | .fetchRejected => (dom, some .fetchFailed)
  | .jsonRejected => (dom, some .decodeFailed)
  | .decoded data =>
    match render parse data dom with
    | (dom1, none) => (dom1, none)
    | (dom1, some e) => (dom1, some (.thrown e))

/-- Source: `async function loadMetrics()`, lines 17-87: the `try` block, and
the `catch` clause that logs whatever was raised. -/
def loadMetrics (parse : String → Option Int) (outcome : FetchOutcome) (dom : Display) : Cycle :=
  match tryBlock parse outcome dom with
  | (dom1, none) => { display := dom1, logged := [], rejection := none }
  | (dom1, some err) => { display := dom1, logged := [err], rejection := none }

/-! ## The proleptic Gregorian calendar, as the specification words it -/

/-- Gregorian leap-year rule: every fourth year, except the centuries that are
not multiples of 400. -/
def isLeapYear (y : Int) : Bool :=
  decide (y % 4 = 0) && (decide (y % 100 ≠ 0) || decide (y % 400 = 0))

/-- Number of days of a calendar year. -/
def yearLength (y : Int) : Int := if isLeapYear y then 366 else 365

/-- Number of days of month `m` (1 to 12) of year `y`. -/
def monthLength (y m : Int) : Int :=
  if m = 2 then (if isLeapYear y then 29 else 28)
  else if m = 4 ∨ m = 6 ∨ m = 9 ∨ m = 11 then 30
  else 31

/-- Days of year `y` that precede its month `m`: the lengths of the months
1 to `m - 1` added up. -/
def daysBeforeMonth (y m : Int) : Int :=
  ((List.range (m - 1).toNat).map (fun (k : Nat) => monthLength y ((k : Int) + 1))).sum

/-- Days from 1970-01-01 to the first day of year `y`, counted year by year
(negative before 1970). -/
def daysBeforeYear (y : Int) : Int :=
  if 1970 ≤ y then ((List.range (y - 1970).toNat).map (fun (k : Nat) => yearLength (1970 + (k : Int)))).sum
  else -((List.range (1970 - y).toNat).map (fun (k : Nat) => yearLength (y + (k : Int)))).sum

/-- Calendar fields of a UTC instant, to the second. -/
structure UTCFields where
  year : Int
  month : Int
  day : Int
  hour : Int
  minute : Int
  second : Int
  deriving DecidableEq, Repr

/-- The fields name a date and time of day that exist. -/
def UTCFields.Valid (f : UTCFields) : Prop :=
  (1 ≤ f.month ∧ f.month ≤ 12) ∧ (1 ≤ f.day ∧ f.day ≤ monthLength f.year f.month) ∧
  (0 ≤ f.hour ∧ f.hour < 24) ∧ (0 ≤ f.minute ∧ f.minute < 60) ∧ (0 ≤ f.second ∧ f.second < 60)

/-- Epoch milliseconds at which the second named by the fields starts. -/
def UTCFields.startMs (f : UTCFields) : Int :=
  ((((daysBeforeYear f.year + daysBeforeMonth f.year f.month + (f.day - 1)) * 24 + f.hour) * 60
    + f.minute) * 60 + f.second) * 1000

/-- The fields are the UTC calendar fields of the instant `ts`: they are valid
and `ts` lies in the second they name, whatever its milliseconds. -/
def UTCFields.IsOf (f : UTCFields) (ts : Int) : Prop :=
  f.Valid ∧ f.startMs ≤ ts ∧ ts < f.startMs + 1000

instance (f : UTCFields) : Decidable f.Valid := by
  unfold UTCFields.Valid
  infer_instance

instance (f : UTCFields) (ts : Int) : Decidable (f.IsOf ts) := by
  unfold UTCFields.IsOf
  infer_instance

/-- The fields the Date getters of the script return for the time value `t`. -/
def dateFields (t : Int) : UTCFields :=
  { year := YearFromTime t, month := MonthFromTime t + 1, day := DateFromTime t,
    hour := HourFromTime t, minute := MinFromTime t, second := SecFromTime t }


/-- A field written with two decimal digits, zero-padded. -/
def twoDigits (n : Int) : String := if n < 10 then "0" ++ toString n else toString n

/-- The text `Y-M-D h:m:s` of the fields: the year in plain decimal, the other
five fields with two digits. -/
def UTCFields.text (f : UTCFields) : String :=
  toString f.year ++ "-" ++ twoDigits f.month ++ "-" ++ twoDigits f.day ++ " " ++
    twoDigits f.hour ++ ":" ++ twoDigits f.minute ++ ":" ++ twoDigits f.second

/-- Matching of a string against a layout in which `d` stands for one decimal
digit and every other character for itself. -/
def matchesLayout : List Char → List Char → Bool
  | [], [] => true
  | p :: layout, c :: s =>
    (if p = 'd' then c.isDigit else decide (p = c)) && matchesLayout layout s
  | _, _ => false

/-- The fixed-width layout `YYYY-MM-DD HH:MM:SS`. -/
def fixedWidthLayout : List Char := "dddd-dd-dd dd:dd:dd".data

/-- A `Date.parse` that recognises no string; used where a concrete parser is
needed and no string is involved. -/
def noParse : String → Option Int := fun _ => none

/-- The number `n` written with exactly `width` decimal digits, zeros in front. -/
def paddedDigits : Nat → Nat → List Char
  | 0, _ => []
  | width + 1, n => paddedDigits width (n / 10) ++ [digitChar (n % 10)]

/-- The year of an ISO-8601 instant string: `YYYY` for the years 0 to 9999, the
expanded form `±YYYYYY` for the others. -/
def isoYearText (y : Int) : String :=
  if 0 ≤ y ∧ y ≤ 9999 then String.mk (paddedDigits 4 y.toNat)
  else if y < 0 then "-" ++ String.mk (paddedDigits 6 (-y).toNat)
  else "+" ++ String.mk (paddedDigits 6 y.toNat)

/-- The ISO-8601 UTC instant string `YYYY-MM-DDTHH:MM:SS.sssZ` of the fields and
the milliseconds `ms` within the second. -/
def UTCFields.isoText (f : UTCFields) (ms : Int) : String :=
  isoYearText f.year ++ "-" ++ twoDigits f.month ++ "-" ++ twoDigits f.day ++ "T" ++
    twoDigits f.hour ++ ":" ++ twoDigits f.minute ++ ":" ++ twoDigits f.second ++ "." ++
    String.mk (paddedDigits 3 ms.toNat) ++ "Z"

/-- The layout of an ISO-8601 instant string with a four-digit year. -/
def isoLayout : List Char := "dddd-dd-ddTdd:dd:dd.dddZ".data

/-- A page left by an earlier cycle: every element shows `stale` and the table
has one row. -/
def staleDisplay : Display :=
  { textContent := fun _ => "stale", joinWatermarkTable := [["stale", "stale", "stale", "stale"]] }

/-- The own property `name` of a decoded object, `undefined` when absent. -/
def field (fields : List (String × JSVal)) (name : String) : JSVal :=
  (fields.lookup name).getD .undefined


/-! ## Calendar lemmas -/

theorem DayFromYear_succ (y : Int) : DayFromYear (y + 1) = DayFromYear y + DaysInYear y := by
  unfold DayFromYear DaysInYear
  split_ifs <;> omega

theorem DayFromYear_epoch : DayFromYear 1970 = 0 := by decide

theorem YearFromTime_spec (t : Int) :
    TimeFromYear (YearFromTime t) ≤ t ∧ t < TimeFromYear (YearFromTime t + 1) := by
  unfold YearFromTime TimeFromYear DayFromYear Day msPerDay
  simp only
  split_ifs <;> constructor <;> (try simp only [sub_add_cancel]) <;> omega

theorem DayFromYear_lt (y z : Int) (h : y < z) : DayFromYear y < DayFromYear z := by
  unfold DayFromYear
  omega

/-- The year is the largest one that starts at or before `t`. -/
theorem YearFromTime_largest (t y : Int) (h : TimeFromYear y ≤ t) : y ≤ YearFromTime t := by
  by_contra hlt
  have h1 : YearFromTime t + 1 ≤ y := by omega
  have h2 := (YearFromTime_spec t).2
  have h3 : DayFromYear (YearFromTime t + 1) ≤ DayFromYear y := by
    rcases eq_or_lt_of_le h1 with h4 | h4
    · rw [h4]
    · exact le_of_lt (DayFromYear_lt _ _ h4)
  unfold TimeFromYear msPerDay at *
  omega

theorem yearLength_eq (y : Int) : yearLength y = DaysInYear y := by
  unfold yearLength isLeapYear DaysInYear
  by_cases h4 : y % 4 = 0 <;> by_cases h100 : y % 100 = 0 <;> by_cases h400 : y % 400 = 0 <;>
    simp [h4, h100, h400]

theorem sum_years_from_epoch (n : Nat) :
    ((List.range n).map (fun (k : Nat) => yearLength (1970 + (k : Int)))).sum = DayFromYear (1970 + n) := by
  induction n with
  | zero => simp [DayFromYear_epoch]
  | succ n ih =>
    rw [List.range_succ, List.map_append, List.sum_append, ih]
    simp only [List.map_cons, List.map_nil, List.sum_cons, List.sum_nil, add_zero]
    rw [yearLength_eq, ← DayFromYear_succ]
    congr 1

theorem sum_years_to_epoch (n : Nat) : ∀ y : Int, y + n = 1970 →
    ((List.range n).map (fun (k : Nat) => yearLength (y + (k : Int)))).sum = -DayFromYear y := by
  induction n with
  | zero =>
    intro y hy
    have : y = 1970 := by simpa using hy
    simp [this, DayFromYear_epoch]
  | succ n ih =>
    intro y hy
    rw [List.range_succ_eq_map, List.map_cons, List.sum_cons, List.map_map]
    have h1 := ih (y + 1) (by push_cast at hy; omega)
    have h2 : ((fun k : Nat => yearLength (y + (k : Int))) ∘ Nat.succ) =
        (fun k : Nat => yearLength (y + 1 + (k : Int))) := by
      funext k
      simp only [Function.comp, Nat.succ_eq_add_one]
      congr 1
      push_cast
      ring
    rw [h2, h1, DayFromYear_succ, yearLength_eq]
    simp

/-- Counting the days year by year gives the closed form of ECMA-262. -/
theorem daysBeforeYear_eq (y : Int) : daysBeforeYear y = DayFromYear y := by
  unfold daysBeforeYear
  split_ifs with h
  · rw [sum_years_from_epoch]
    congr 1
    omega
  · rw [sum_years_to_epoch _ y (by omega)]
    simp

theorem DaysInYear_cases (y : Int) : DaysInYear y = 365 ∨ DaysInYear y = 366 := by
  unfold DaysInYear
  split_ifs <;> simp

theorem isLeapYear_eq (y : Int) : isLeapYear y = decide (DaysInYear y = 366) := by
  have h := yearLength_eq y
  unfold yearLength at h
  by_cases hl : isLeapYear y = true
  · simp [hl] at h
    simp [hl, ← h]
  · simp [hl] at h
    simp [hl, ← h]

theorem DayWithinYear_bounds (t : Int) :
    0 ≤ DayWithinYear t ∧ DayWithinYear t < DaysInYear (YearFromTime t) := by
  have h := YearFromTime_spec t
  have hs := DayFromYear_succ (YearFromTime t)
  unfold DayWithinYear Day
  unfold TimeFromYear at h
  unfold msPerDay at *
  generalize DayFromYear (YearFromTime t) = a at *
  generalize DayFromYear (YearFromTime t + 1) = b at *
  omega

theorem monthLength_values (y : Int) :
    monthLength y 1 = 31 ∧ monthLength y 2 = (if isLeapYear y then 29 else 28) ∧
    monthLength y 3 = 31 ∧ monthLength y 4 = 30 ∧ monthLength y 5 = 31 ∧ monthLength y 6 = 30 ∧
    monthLength y 7 = 31 ∧ monthLength y 8 = 31 ∧ monthLength y 9 = 30 ∧ monthLength y 10 = 31 ∧
    monthLength y 11 = 30 ∧ monthLength y 12 = 31 := by
  simp [monthLength]

theorem daysBeforeMonth_values (y : Int) :
    daysBeforeMonth y 1 = 0 ∧ daysBeforeMonth y 2 = 31 ∧
    daysBeforeMonth y 3 = 59 + (if isLeapYear y then 1 else 0) ∧
    daysBeforeMonth y 4 = 90 + (if isLeapYear y then 1 else 0) ∧
    daysBeforeMonth y 5 = 120 + (if isLeapYear y then 1 else 0) ∧
    daysBeforeMonth y 6 = 151 + (if isLeapYear y then 1 else 0) ∧
    daysBeforeMonth y 7 = 181 + (if isLeapYear y then 1 else 0) ∧
    daysBeforeMonth y 8 = 212 + (if isLeapYear y then 1 else 0) ∧
    daysBeforeMonth y 9 = 243 + (if isLeapYear y then 1 else 0) ∧
    daysBeforeMonth y 10 = 273 + (if isLeapYear y then 1 else 0) ∧
    daysBeforeMonth y 11 = 304 + (if isLeapYear y then 1 else 0) ∧
    daysBeforeMonth y 12 = 334 + (if isLeapYear y then 1 else 0) := by
  cases h : isLeapYear y <;>
    simp [daysBeforeMonth, monthLength, h, List.range_succ]

theorem InLeapYear_eq (t : Int) :
    InLeapYear t = if isLeapYear (YearFromTime t) then 1 else 0 := by
  unfold InLeapYear
  rw [isLeapYear_eq]
  simp

theorem dateOfDay_values (d L : Int) :
    dateOfDay 0 d L = d + 1 ∧ dateOfDay 1 d L = d - 30 ∧ dateOfDay 2 d L = d - 58 - L ∧
    dateOfDay 3 d L = d - 89 - L ∧ dateOfDay 4 d L = d - 119 - L ∧
    dateOfDay 5 d L = d - 150 - L ∧ dateOfDay 6 d L = d - 180 - L ∧
    dateOfDay 7 d L = d - 211 - L ∧ dateOfDay 8 d L = d - 242 - L ∧
    dateOfDay 9 d L = d - 272 - L ∧ dateOfDay 10 d L = d - 303 - L ∧
    dateOfDay 11 d L = d - 333 - L :=
  ⟨rfl, rfl, rfl, rfl, rfl, rfl, rfl, rfl, rfl, rfl, rfl, rfl⟩

theorem daysBeforeMonth_leap (y L : Int) (hL : (if isLeapYear y then (1 : Int) else 0) = L) :
    daysBeforeMonth y 1 = 0 ∧
    daysBeforeMonth y 2 = 31 ∧
    daysBeforeMonth y 3 = 59 + L ∧
    daysBeforeMonth y 4 = 90 + L ∧
    daysBeforeMonth y 5 = 120 + L ∧
    daysBeforeMonth y 6 = 151 + L ∧
    daysBeforeMonth y 7 = 181 + L ∧
    daysBeforeMonth y 8 = 212 + L ∧
    daysBeforeMonth y 9 = 243 + L ∧
    daysBeforeMonth y 10 = 273 + L ∧
    daysBeforeMonth y 11 = 304 + L ∧
    daysBeforeMonth y 12 = 334 + L := by
  subst hL
  exact daysBeforeMonth_values y

theorem monthLength_leap (y L : Int) (hL : (if isLeapYear y then (1 : Int) else 0) = L) :
    monthLength y 1 = 31 ∧
    monthLength y 2 = 28 + L ∧
    monthLength y 3 = 31 ∧
    monthLength y 4 = 30 ∧
    monthLength y 5 = 31 ∧
    monthLength y 6 = 30 ∧
    monthLength y 7 = 31 ∧
    monthLength y 8 = 31 ∧
    monthLength y 9 = 30 ∧
    monthLength y 10 = 31 ∧
    monthLength y 11 = 30 ∧
    monthLength y 12 = 31 := by
  subst hL
  have h := monthLength_values y
  cases hb : isLeapYear y <;> simp [hb] at h ⊢ <;> exact h

/-- One row of the month tables: when day `d` lies in the range of month `m`
(numbered from 1), which starts `before` days into the year and has `len` days,
the fields satisfy what the calendar asks of them. -/
theorem month_row (y d dt m before len : Int) (hm : 1 ≤ m ∧ m ≤ 12)
    (hb : daysBeforeMonth y m = before) (hl : monthLength y m = len)
    (hdt : dt = d - before + 1) (h1 : before ≤ d) (h2 : d < before + len) :
    (1 ≤ m ∧ m ≤ 12) ∧ (1 ≤ dt ∧ dt ≤ monthLength y m) ∧
      daysBeforeMonth y m + (dt - 1) = d := by
  rw [hb, hl]
  omega

/-- The two tables of ECMA-262 agree with the month lengths: day `d` of year
`y` is day `dateOfDay ..` of month `monthOfDay .. + 1`. -/
theorem month_tables (y d : Int) (h0 : 0 ≤ d) (h1 : d < yearLength y) :
    (1 ≤ monthOfDay d (if isLeapYear y then 1 else 0) + 1 ∧
      monthOfDay d (if isLeapYear y then 1 else 0) + 1 ≤ 12) ∧
    (1 ≤ dateOfDay (monthOfDay d (if isLeapYear y then 1 else 0)) d
        (if isLeapYear y then 1 else 0) ∧
      dateOfDay (monthOfDay d (if isLeapYear y then 1 else 0)) d
        (if isLeapYear y then 1 else 0) ≤
        monthLength y (monthOfDay d (if isLeapYear y then 1 else 0) + 1)) ∧
    daysBeforeMonth y (monthOfDay d (if isLeapYear y then 1 else 0) + 1) +
      (dateOfDay (monthOfDay d (if isLeapYear y then 1 else 0)) d
        (if isLeapYear y then 1 else 0) - 1) = d := by
  have hL : (if isLeapYear y then (1 : Int) else 0) = 0 ∨
      (if isLeapYear y then (1 : Int) else 0) = 1 := by
    cases isLeapYear y <;> simp
  have hlen : yearLength y = 365 + (if isLeapYear y then (1 : Int) else 0) := by
    unfold yearLength
    cases isLeapYear y <;> simp
  rw [hlen] at h1
  generalize hdef : (if isLeapYear y then (1 : Int) else 0) = L at *
  by_cases c0 : d < 31
  · have e : monthOfDay d L = 0 := by
      unfold monthOfDay
      rw [if_pos c0]
    rw [e, (dateOfDay_values d L).1, show ((0 : Int) + 1) = 1 from rfl]
    exact month_row y d _ 1 _ _ (by omega) ((daysBeforeMonth_leap y L hdef).1)
      ((monthLength_leap y L hdef).1) (by omega) (by omega) (by omega)
  · by_cases c1 : d < 59 + L
    · have e : monthOfDay d L = 1 := by
        unfold monthOfDay
        rw [if_neg c0, if_pos c1]
      rw [e, (dateOfDay_values d L).2.1, show ((1 : Int) + 1) = 2 from rfl]
      exact month_row y d _ 2 _ _ (by omega) ((daysBeforeMonth_leap y L hdef).2.1)
        ((monthLength_leap y L hdef).2.1) (by omega) (by omega) (by omega)
    · by_cases c2 : d < 90 + L
      · have e : monthOfDay d L = 2 := by
          unfold monthOfDay
          rw [if_neg c0, if_neg c1, if_pos c2]
        rw [e, (dateOfDay_values d L).2.2.1, show ((2 : Int) + 1) = 3 from rfl]
        exact month_row y d _ 3 _ _ (by omega) ((daysBeforeMonth_leap y L hdef).2.2.1)
          ((monthLength_leap y L hdef).2.2.1) (by omega) (by omega) (by omega)
      · by_cases c3 : d < 120 + L
        · have e : monthOfDay d L = 3 := by
            unfold monthOfDay
            rw [if_neg c0, if_neg c1, if_neg c2, if_pos c3]
          rw [e, (dateOfDay_values d L).2.2.2.1, show ((3 : Int) + 1) = 4 from rfl]
          exact month_row y d _ 4 _ _ (by omega) ((daysBeforeMonth_leap y L hdef).2.2.2.1)
            ((monthLength_leap y L hdef).2.2.2.1) (by omega) (by omega) (by omega)
        · by_cases c4 : d < 151 + L
          · have e : monthOfDay d L = 4 := by
              unfold monthOfDay
              rw [if_neg c0, if_neg c1, if_neg c2, if_neg c3, if_pos c4]
            rw [e, (dateOfDay_values d L).2.2.2.2.1, show ((4 : Int) + 1) = 5 from rfl]
            exact month_row y d _ 5 _ _ (by omega) ((daysBeforeMonth_leap y L hdef).2.2.2.2.1)
              ((monthLength_leap y L hdef).2.2.2.2.1) (by omega) (by omega) (by omega)
          · by_cases c5 : d < 181 + L
            · have e : monthOfDay d L = 5 := by
                unfold monthOfDay
                rw [if_neg c0, if_neg c1, if_neg c2, if_neg c3, if_neg c4, if_pos c5]
              rw [e, (dateOfDay_values d L).2.2.2.2.2.1, show ((5 : Int) + 1) = 6 from rfl]
              exact month_row y d _ 6 _ _ (by omega) ((daysBeforeMonth_leap y L hdef).2.2.2.2.2.1)
                ((monthLength_leap y L hdef).2.2.2.2.2.1) (by omega) (by omega) (by omega)
            · by_cases c6 : d < 212 + L
              · have e : monthOfDay d L = 6 := by
                  unfold monthOfDay
                  rw [if_neg c0, if_neg c1, if_neg c2, if_neg c3, if_neg c4, if_neg c5, if_pos c6]
                rw [e, (dateOfDay_values d L).2.2.2.2.2.2.1, show ((6 : Int) + 1) = 7 from rfl]
                exact month_row y d _ 7 _ _ (by omega) ((daysBeforeMonth_leap y L hdef).2.2.2.2.2.2.1)
                  ((monthLength_leap y L hdef).2.2.2.2.2.2.1) (by omega) (by omega) (by omega)
              · by_cases c7 : d < 243 + L
                · have e : monthOfDay d L = 7 := by
                    unfold monthOfDay
                    rw [if_neg c0, if_neg c1, if_neg c2, if_neg c3, if_neg c4, if_neg c5, if_neg c6, if_pos c7]
                  rw [e, (dateOfDay_values d L).2.2.2.2.2.2.2.1, show ((7 : Int) + 1) = 8 from rfl]
                  exact month_row y d _ 8 _ _ (by omega) ((daysBeforeMonth_leap y L hdef).2.2.2.2.2.2.2.1)
                    ((monthLength_leap y L hdef).2.2.2.2.2.2.2.1) (by omega) (by omega) (by omega)
                · by_cases c8 : d < 273 + L
                  · have e : monthOfDay d L = 8 := by
                      unfold monthOfDay
                      rw [if_neg c0, if_neg c1, if_neg c2, if_neg c3, if_neg c4, if_neg c5, if_neg c6, if_neg c7, if_pos c8]
                    rw [e, (dateOfDay_values d L).2.2.2.2.2.2.2.2.1, show ((8 : Int) + 1) = 9 from rfl]
                    exact month_row y d _ 9 _ _ (by omega) ((daysBeforeMonth_leap y L hdef).2.2.2.2.2.2.2.2.1)
                      ((monthLength_leap y L hdef).2.2.2.2.2.2.2.2.1) (by omega) (by omega) (by omega)
                  · by_cases c9 : d < 304 + L
                    · have e : monthOfDay d L = 9 := by
                        unfold monthOfDay
                        rw [if_neg c0, if_neg c1, if_neg c2, if_neg c3, if_neg c4, if_neg c5, if_neg c6, if_neg c7, if_neg c8, if_pos c9]
                      rw [e, (dateOfDay_values d L).2.2.2.2.2.2.2.2.2.1, show ((9 : Int) + 1) = 10 from rfl]
                      exact month_row y d _ 10 _ _ (by omega) ((daysBeforeMonth_leap y L hdef).2.2.2.2.2.2.2.2.2.1)
                        ((monthLength_leap y L hdef).2.2.2.2.2.2.2.2.2.1) (by omega) (by omega) (by omega)
                    · by_cases c10 : d < 334 + L
                      · have e : monthOfDay d L = 10 := by
                          unfold monthOfDay
                          rw [if_neg c0, if_neg c1, if_neg c2, if_neg c3, if_neg c4, if_neg c5, if_neg c6, if_neg c7, if_neg c8, if_neg c9, if_pos c10]
                        rw [e, (dateOfDay_values d L).2.2.2.2.2.2.2.2.2.2.1, show ((10 : Int) + 1) = 11 from rfl]
                        exact month_row y d _ 11 _ _ (by omega) ((daysBeforeMonth_leap y L hdef).2.2.2.2.2.2.2.2.2.2.1)
                          ((monthLength_leap y L hdef).2.2.2.2.2.2.2.2.2.2.1) (by omega) (by omega) (by omega)
                      · have e : monthOfDay d L = 11 := by
                          unfold monthOfDay
                          rw [if_neg c0, if_neg c1, if_neg c2, if_neg c3, if_neg c4, if_neg c5, if_neg c6, if_neg c7, if_neg c8, if_neg c9, if_neg c10]
                        rw [e, (dateOfDay_values d L).2.2.2.2.2.2.2.2.2.2.2, show ((11 : Int) + 1) = 12 from rfl]
                        exact month_row y d _ 12 _ _ (by omega) ((daysBeforeMonth_leap y L hdef).2.2.2.2.2.2.2.2.2.2.2)
                          ((monthLength_leap y L hdef).2.2.2.2.2.2.2.2.2.2.2) (by omega) (by omega) (by omega)

theorem month_date_of_time (t : Int) :
    (1 ≤ MonthFromTime t + 1 ∧ MonthFromTime t + 1 ≤ 12) ∧
    (1 ≤ DateFromTime t ∧
      DateFromTime t ≤ monthLength (YearFromTime t) (MonthFromTime t + 1)) ∧
    daysBeforeMonth (YearFromTime t) (MonthFromTime t + 1) + (DateFromTime t - 1) =
      DayWithinYear t := by
  obtain ⟨hw0, hw1⟩ := DayWithinYear_bounds t
  rw [← yearLength_eq] at hw1
  have h := month_tables (YearFromTime t) (DayWithinYear t) hw0 hw1
  unfold DateFromTime MonthFromTime
  rw [InLeapYear_eq]
  exact h

/-! ## Decimal digits -/

theorem natDigitsFuel_fuel (f1 : Nat) : ∀ (f2 n : Nat), n < f1 → n < f2 →
    natDigitsFuel f1 n = natDigitsFuel f2 n := by
  induction f1 with
  | zero => intro f2 n h; omega
  | succ k ih =>
    intro f2 n h1 h2
    cases f2 with
    | zero => omega
    | succ j =>
      unfold natDigitsFuel
      by_cases hn : n < 10
      · simp [hn]
      · simp only [hn, if_false]
        rw [ih j (n / 10) (by omega) (by omega)]

theorem natDigits_eq (n : Nat) :
    natDigits n = if n < 10 then [digitChar n] else natDigits (n / 10) ++ [digitChar (n % 10)] := by
  unfold natDigits
  rw [natDigitsFuel]
  by_cases hn : n < 10
  · simp [hn]
  · simp only [hn, if_false]
    rw [natDigitsFuel_fuel n (n / 10 + 1) (n / 10) (by omega) (by omega)]

theorem natDigits_one (n : Nat) (h : n < 10) : natDigits n = [digitChar n] := by
  rw [natDigits_eq, if_pos h]

theorem natDigits_two (n : Nat) (h1 : 10 ≤ n) (h2 : n < 100) :
    natDigits n = [digitChar (n / 10), digitChar (n % 10)] := by
  rw [natDigits_eq, if_neg (by omega), natDigits_one _ (by omega)]
  rfl

theorem natDigits_three (n : Nat) (h1 : 100 ≤ n) (h2 : n < 1000) :
    natDigits n = [digitChar (n / 100), digitChar (n / 10 % 10), digitChar (n % 10)] := by
  rw [natDigits_eq, if_neg (by omega), natDigits_two _ (by omega) (by omega)]
  have : n / 10 / 10 = n / 100 := by omega
  rw [this]
  rfl

theorem natDigits_four (n : Nat) (h1 : 1000 ≤ n) (h2 : n < 10000) :
    natDigits n = [digitChar (n / 1000), digitChar (n / 100 % 10), digitChar (n / 10 % 10),
      digitChar (n % 10)] := by
  rw [natDigits_eq, if_neg (by omega), natDigits_three _ (by omega) (by omega)]
  have e1 : n / 10 / 100 = n / 1000 := by omega
  have e2 : n / 10 / 10 % 10 = n / 100 % 10 := by omega
  rw [e1, e2]
  rfl

theorem digitChar_eq (d : Nat) (h : d < 10) : Nat.digitChar d = digitChar d := by
  interval_cases d <;> rfl

theorem toDigitsCore_eq (fuel : Nat) : ∀ (n : Nat) (ds : List Char), n < fuel →
    Nat.toDigitsCore 10 fuel n ds = natDigits n ++ ds := by
  induction fuel with
  | zero => intro n ds h; omega
  | succ k ih =>
    intro n ds h
    rw [Nat.toDigitsCore, natDigits_eq]
    by_cases hn : n < 10
    · have h0 : n / 10 = 0 := by omega
      have h1 : n % 10 = n := by omega
      simp [hn, h0, h1, digitChar_eq n hn]
    · have h0 : n / 10 ≠ 0 := by omega
      simp only [h0, if_false, hn]
      rw [ih (n / 10) _ (by omega), digitChar_eq _ (Nat.mod_lt _ (by decide))]
      simp

/-- The digits are the ones Lean itself prints for the number. -/
theorem natDigits_repr (n : Nat) : String.mk (natDigits n) = toString n := by
  show _ = Nat.repr n
  unfold Nat.repr Nat.toDigits
  rw [toDigitsCore_eq (n + 1) n [] (by omega)]
  simp [List.asString]

/-- Number::toString prints a safe integer as Lean prints the integer. -/
theorem numberToString_small (n : Int) : numberToString n = toString n := by
  unfold numberToString
  rw [natDigits_repr]
  cases n with
  | ofNat m =>
    have : ¬ ((Int.ofNat m) < 0) := by simp
    rw [if_neg this]
    rfl
  | negSucc m =>
    have : (Int.negSucc m) < 0 := Int.negSucc_lt_zero m
    rw [if_pos this]
    rfl

theorem isDigit_digitChar (d : Nat) (h : d < 10) : (digitChar d).isDigit = true := by
  interval_cases d <;> rfl

/-! ## The Date getters return the UTC calendar fields -/

theorem Day_eq_daysBefore (t : Int) :
    daysBeforeYear (YearFromTime t) + daysBeforeMonth (YearFromTime t) (MonthFromTime t + 1) +
      (DateFromTime t - 1) = Day t := by
  rw [daysBeforeYear_eq, add_assoc, (month_date_of_time t).2.2]
  unfold DayWithinYear
  omega

theorem time_of_day (t d : Int) (hd : d = t / 86400000) :
    ((((d * 24 + t / 3600000 % 24) * 60 + t / 60000 % 60) * 60 + t / 1000 % 60) * 1000 ≤ t) ∧
    (t < (((d * 24 + t / 3600000 % 24) * 60 + t / 60000 % 60) * 60 + t / 1000 % 60) * 1000
      + 1000) := by
  omega

/-- The fields the getters return for a time value are its UTC calendar
fields. -/
theorem dateFields_isOf (t : Int) : (dateFields t).IsOf t := by
  have hmd := month_date_of_time t
  have hday := Day_eq_daysBefore t
  have htod := time_of_day t (Day t) rfl
  refine ⟨⟨hmd.1, hmd.2.1, ?_, ?_, ?_⟩, ?_, ?_⟩
  · show 0 ≤ HourFromTime t ∧ HourFromTime t < 24
    unfold HourFromTime
    omega
  · show 0 ≤ MinFromTime t ∧ MinFromTime t < 60
    unfold MinFromTime
    omega
  · show 0 ≤ SecFromTime t ∧ SecFromTime t < 60
    unfold SecFromTime
    omega
  · show ((((daysBeforeYear (YearFromTime t) +
      daysBeforeMonth (YearFromTime t) (MonthFromTime t + 1) + (DateFromTime t - 1)) * 24 +
      HourFromTime t) * 60 + MinFromTime t) * 60 + SecFromTime t) * 1000 ≤ t
    rw [hday]
    exact htod.1
  · show t < ((((daysBeforeYear (YearFromTime t) +
      daysBeforeMonth (YearFromTime t) (MonthFromTime t + 1) + (DateFromTime t - 1)) * 24 +
      HourFromTime t) * 60 + MinFromTime t) * 60 + SecFromTime t) * 1000 + 1000
    rw [hday]
    exact htod.2

/-! ## The calendar fields of an instant are unique -/

/-- Reading the month tables backwards: a valid month and day of year `y`
name a day `w` of the year that the tables of ECMA-262 map back to them. -/
theorem tables_of_month_day (y m d w L : Int)
    (hL : (if isLeapYear y then (1 : Int) else 0) = L)
    (hm1 : 1 ≤ m) (hm2 : m ≤ 12) (hd1 : 1 ≤ d) (hd2 : d ≤ monthLength y m)
    (hw : daysBeforeMonth y m + (d - 1) = w) :
    (0 ≤ w ∧ w < 365 + L) ∧ monthOfDay w L + 1 = m ∧ dateOfDay (monthOfDay w L) w L = d := by
  have hL01 : L = 0 ∨ L = 1 := by
    subst hL
    cases isLeapYear y <;> simp
  have hb := daysBeforeMonth_leap y L hL
  have hl := monthLength_leap y L hL
  interval_cases m
  · rw [hl.1] at hd2
    rw [hb.1] at hw
    clear hb hl
    have c0 : w < 31 := by omega
    have e : monthOfDay w L = 0 := by
      unfold monthOfDay
      rw [if_pos c0]
    rw [e, (dateOfDay_values w L).1]
    omega
  · rw [hl.2.1] at hd2
    rw [hb.2.1] at hw
    clear hb hl
    have c0 : ¬ w < 31 := by omega
    have c1 : w < 59 + L := by omega
    have e : monthOfDay w L = 1 := by
      unfold monthOfDay
      rw [if_neg c0, if_pos c1]
    rw [e, (dateOfDay_values w L).2.1]
    omega
  · rw [hl.2.2.1] at hd2
    rw [hb.2.2.1] at hw
    clear hb hl
    have c0 : ¬ w < 31 := by omega
    have c1 : ¬ w < 59 + L := by omega
    have c2 : w < 90 + L := by omega
    have e : monthOfDay w L = 2 := by
      unfold monthOfDay
      rw [if_neg c0, if_neg c1, if_pos c2]
    rw [e, (dateOfDay_values w L).2.2.1]
    omega
  · rw [hl.2.2.2.1] at hd2
    rw [hb.2.2.2.1] at hw
    clear hb hl
    have c0 : ¬ w < 31 := by omega
    have c1 : ¬ w < 59 + L := by omega
    have c2 : ¬ w < 90 + L := by omega
    have c3 : w < 120 + L := by omega
    have e : monthOfDay w L = 3 := by
      unfold monthOfDay
      rw [if_neg c0, if_neg c1, if_neg c2, if_pos c3]
    rw [e, (dateOfDay_values w L).2.2.2.1]
    omega
  · rw [hl.2.2.2.2.1] at hd2
    rw [hb.2.2.2.2.1] at hw
    clear hb hl
    have c0 : ¬ w < 31 := by omega
    have c1 : ¬ w < 59 + L := by omega
    have c2 : ¬ w < 90 + L := by omega
    have c3 : ¬ w < 120 + L := by omega
    have c4 : w < 151 + L := by omega
    have e : monthOfDay w L = 4 := by
      unfold monthOfDay
      rw [if_neg c0, if_neg c1, if_neg c2, if_neg c3, if_pos c4]
    rw [e, (dateOfDay_values w L).2.2.2.2.1]
    omega
  · rw [hl.2.2.2.2.2.1] at hd2
    rw [hb.2.2.2.2.2.1] at hw
    clear hb hl
    have c0 : ¬ w < 31 := by omega
    have c1 : ¬ w < 59 + L := by omega
    have c2 : ¬ w < 90 + L := by omega
    have c3 : ¬ w < 120 + L := by omega
    have c4 : ¬ w < 151 + L := by omega
    have c5 : w < 181 + L := by omega
    have e : monthOfDay w L = 5 := by
      unfold monthOfDay
      rw [if_neg c0, if_neg c1, if_neg c2, if_neg c3, if_neg c4, if_pos c5]
    rw [e, (dateOfDay_values w L).2.2.2.2.2.1]
    omega
  · rw [hl.2.2.2.2.2.2.1] at hd2
    rw [hb.2.2.2.2.2.2.1] at hw
    clear hb hl
    have c0 : ¬ w < 31 := by omega
    have c1 : ¬ w < 59 + L := by omega
    have c2 : ¬ w < 90 + L := by omega
    have c3 : ¬ w < 120 + L := by omega
    have c4 : ¬ w < 151 + L := by omega
    have c5 : ¬ w < 181 + L := by omega
    have c6 : w < 212 + L := by omega
    have e : monthOfDay w L = 6 := by
      unfold monthOfDay
      rw [if_neg c0, if_neg c1, if_neg c2, if_neg c3, if_neg c4, if_neg c5, if_pos c6]
    rw [e, (dateOfDay_values w L).2.2.2.2.2.2.1]
    omega
  · rw [hl.2.2.2.2.2.2.2.1] at hd2
    rw [hb.2.2.2.2.2.2.2.1] at hw
    clear hb hl
    have c0 : ¬ w < 31 := by omega
    have c1 : ¬ w < 59 + L := by omega
    have c2 : ¬ w < 90 + L := by omega
    have c3 : ¬ w < 120 + L := by omega
    have c4 : ¬ w < 151 + L := by omega
    have c5 : ¬ w < 181 + L := by omega
    have c6 : ¬ w < 212 + L := by omega
    have c7 : w < 243 + L := by omega
    have e : monthOfDay w L = 7 := by
      unfold monthOfDay
      rw [if_neg c0, if_neg c1, if_neg c2, if_neg c3, if_neg c4, if_neg c5, if_neg c6, if_pos c7]
    rw [e, (dateOfDay_values w L).2.2.2.2.2.2.2.1]
    omega
  · rw [hl.2.2.2.2.2.2.2.2.1] at hd2
    rw [hb.2.2.2.2.2.2.2.2.1] at hw
    clear hb hl
    have c0 : ¬ w < 31 := by omega
    have c1 : ¬ w < 59 + L := by omega
    have c2 : ¬ w < 90 + L := by omega
    have c3 : ¬ w < 120 + L := by omega
    have c4 : ¬ w < 151 + L := by omega
    have c5 : ¬ w < 181 + L := by omega
    have c6 : ¬ w < 212 + L := by omega
    have c7 : ¬ w < 243 + L := by omega
    have c8 : w < 273 + L := by omega
    have e : monthOfDay w L = 8 := by
      unfold monthOfDay
      rw [if_neg c0, if_neg c1, if_neg c2, if_neg c3, if_neg c4, if_neg c5, if_neg c6, if_neg c7, if_pos c8]
    rw [e, (dateOfDay_values w L).2.2.2.2.2.2.2.2.1]
    omega
  · rw [hl.2.2.2.2.2.2.2.2.2.1] at hd2
    rw [hb.2.2.2.2.2.2.2.2.2.1] at hw
    clear hb hl
    have c0 : ¬ w < 31 := by omega
    have c1 : ¬ w < 59 + L := by omega
    have c2 : ¬ w < 90 + L := by omega
    have c3 : ¬ w < 120 + L := by omega
    have c4 : ¬ w < 151 + L := by omega
    have c5 : ¬ w < 181 + L := by omega
    have c6 : ¬ w < 212 + L := by omega
    have c7 : ¬ w < 243 + L := by omega
    have c8 : ¬ w < 273 + L := by omega
    have c9 : w < 304 + L := by omega
    have e : monthOfDay w L = 9 := by
      unfold monthOfDay
      rw [if_neg c0, if_neg c1, if_neg c2, if_neg c3, if_neg c4, if_neg c5, if_neg c6, if_neg c7, if_neg c8, if_pos c9]
    rw [e, (dateOfDay_values w L).2.2.2.2.2.2.2.2.2.1]
    omega
  · rw [hl.2.2.2.2.2.2.2.2.2.2.1] at hd2
    rw [hb.2.2.2.2.2.2.2.2.2.2.1] at hw
    clear hb hl
    have c0 : ¬ w < 31 := by omega
    have c1 : ¬ w < 59 + L := by omega
    have c2 : ¬ w < 90 + L := by omega
    have c3 : ¬ w < 120 + L := by omega
    have c4 : ¬ w < 151 + L := by omega
    have c5 : ¬ w < 181 + L := by omega
    have c6 : ¬ w < 212 + L := by omega
    have c7 : ¬ w < 243 + L := by omega
    have c8 : ¬ w < 273 + L := by omega
    have c9 : ¬ w < 304 + L := by omega
    have c10 : w < 334 + L := by omega
    have e : monthOfDay w L = 10 := by
      unfold monthOfDay
      rw [if_neg c0, if_neg c1, if_neg c2, if_neg c3, if_neg c4, if_neg c5, if_neg c6, if_neg c7, if_neg c8, if_neg c9, if_pos c10]
    rw [e, (dateOfDay_values w L).2.2.2.2.2.2.2.2.2.2.1]
    omega
  · rw [hl.2.2.2.2.2.2.2.2.2.2.2] at hd2
    rw [hb.2.2.2.2.2.2.2.2.2.2.2] at hw
    clear hb hl
    have c0 : ¬ w < 31 := by omega
    have c1 : ¬ w < 59 + L := by omega
    have c2 : ¬ w < 90 + L := by omega
    have c3 : ¬ w < 120 + L := by omega
    have c4 : ¬ w < 151 + L := by omega
    have c5 : ¬ w < 181 + L := by omega
    have c6 : ¬ w < 212 + L := by omega
    have c7 : ¬ w < 243 + L := by omega
    have c8 : ¬ w < 273 + L := by omega
    have c9 : ¬ w < 304 + L := by omega
    have c10 : ¬ w < 334 + L := by omega
    have e : monthOfDay w L = 11 := by
      unfold monthOfDay
      rw [if_neg c0, if_neg c1, if_neg c2, if_neg c3, if_neg c4, if_neg c5, if_neg c6, if_neg c7, if_neg c8, if_neg c9, if_neg c10]
    rw [e, (dateOfDay_values w L).2.2.2.2.2.2.2.2.2.2.2]
    omega

theorem day_and_time_of_start (D h mi s t : Int) (hh : 0 ≤ h ∧ h < 24) (hmi : 0 ≤ mi ∧ mi < 60)
    (hs : 0 ≤ s ∧ s < 60) (h1 : (((D * 24 + h) * 60 + mi) * 60 + s) * 1000 ≤ t)
    (h2 : t < (((D * 24 + h) * 60 + mi) * 60 + s) * 1000 + 1000) :
    t / 86400000 = D ∧ t / 3600000 % 24 = h ∧ t / 60000 % 60 = mi ∧ t / 1000 % 60 = s := by
  omega

theorem YearFromTime_unique (t y : Int) (h1 : DayFromYear y ≤ Day t)
    (h2 : Day t < DayFromYear (y + 1)) : YearFromTime t = y := by
  have hle : y ≤ YearFromTime t := by
    apply YearFromTime_largest
    unfold TimeFromYear Day msPerDay at *
    omega
  by_contra hne
  have hlt : y + 1 ≤ YearFromTime t := by omega
  have h3 : DayFromYear (y + 1) ≤ DayFromYear (YearFromTime t) := by
    rcases eq_or_lt_of_le hlt with h4 | h4
    · rw [h4]
    · exact le_of_lt (DayFromYear_lt _ _ h4)
  have h5 := (YearFromTime_spec t).1
  unfold TimeFromYear Day msPerDay at *
  omega

/-- An instant has one set of UTC calendar fields: the one the Date getters
return. -/
theorem isOf_unique (f : UTCFields) (ts : Int) (h : f.IsOf ts) : f = dateFields ts := by
  obtain ⟨y, m, d, hr, mi, s⟩ := f
  obtain ⟨⟨⟨m1, m2⟩, ⟨d1, d2⟩, hh, hmi, hs⟩, st1, st2⟩ := h
  simp only at m1 m2 d1 d2 hh hmi hs
  obtain ⟨hw, hmon, hdat⟩ := tables_of_month_day y m d _ _ rfl m1 m2 d1 d2 rfl
  have hstart : UTCFields.startMs ⟨y, m, d, hr, mi, s⟩ =
      ((((daysBeforeYear y + (daysBeforeMonth y m + (d - 1))) * 24 + hr) * 60 + mi) * 60 + s)
        * 1000 := by
    unfold UTCFields.startMs
    ring
  rw [hstart] at st1 st2
  obtain ⟨hD, hH, hM, hS⟩ := day_and_time_of_start _ hr mi s ts hh hmi hs st1 st2
  rw [daysBeforeYear_eq] at hD
  have hlen : yearLength y = 365 + (if isLeapYear y then (1 : Int) else 0) := by
    unfold yearLength
    cases isLeapYear y <;> simp
  have hsucc := DayFromYear_succ y
  rw [← yearLength_eq, hlen] at hsucc
  have hyear : YearFromTime ts = y := by
    apply YearFromTime_unique
    · show DayFromYear y ≤ ts / 86400000
      rw [hD]
      omega
    · show ts / 86400000 < DayFromYear (y + 1)
      rw [hD, hsucc]
      omega
  have hdwy : DayWithinYear ts = daysBeforeMonth y m + (d - 1) := by
    unfold DayWithinYear Day msPerDay
    rw [hyear, hD]
    omega
  have hleap : InLeapYear ts = if isLeapYear y then 1 else 0 := by
    rw [InLeapYear_eq, hyear]
  have hmonth : MonthFromTime ts + 1 = m := by
    unfold MonthFromTime
    rw [hdwy, hleap]
    exact hmon
  have hdate : DateFromTime ts = d := by
    unfold DateFromTime MonthFromTime
    rw [hdwy, hleap]
    exact hdat
  unfold dateFields HourFromTime MinFromTime SecFromTime msPerHour msPerMinute msPerSecond
  rw [hyear, hmonth, hdate, hH, hM, hS]


/-! ## Strings of the fields -/

theorem toString_natCast (m : Nat) : toString ((m : Nat) : Int) = String.mk (natDigits m) := by
  rw [natDigits_repr]
  rfl

theorem twoDigits_chars (n : Int) (h0 : 0 ≤ n) (h1 : n < 100) :
    twoDigits n = String.mk [digitChar (n.toNat / 10), digitChar (n.toNat % 10)] := by
  obtain ⟨m, rfl⟩ := Int.eq_ofNat_of_zero_le h0
  have hm : m < 100 := by omega
  unfold twoDigits
  rw [toString_natCast]
  simp only [Int.toNat_ofNat]
  by_cases h : m < 10
  · have h' : ((m : Nat) : Int) < 10 := by omega
    rw [if_pos h', natDigits_one m h]
    have e1 : m / 10 = 0 := by omega
    have e2 : m % 10 = m := by omega
    rw [e1, e2]
    rfl
  · have h' : ¬ ((m : Nat) : Int) < 10 := by omega
    rw [if_neg h', natDigits_two m (by omega) hm]

theorem padStart_two (n : Int) (h0 : 0 ≤ n) (h1 : n < 100) :
    padStart (numberToString n) 2 '0' = twoDigits n := by
  rw [numberToString_small n]
  obtain ⟨m, rfl⟩ := Int.eq_ofNat_of_zero_le h0
  have hm : m < 100 := by omega
  unfold twoDigits padStart
  rw [toString_natCast]
  by_cases h : m < 10
  · have h' : ((m : Nat) : Int) < 10 := by omega
    rw [if_pos h', natDigits_one m h]
    rfl
  · have h' : ¬ ((m : Nat) : Int) < 10 := by omega
    rw [if_neg h', natDigits_two m (by omega) hm]
    rfl

theorem YearFromTime_range (t : Int) (hlo : -8640000000000000 ≤ t) (hhi : t ≤ 8640000000000000) :
    -271821 ≤ YearFromTime t ∧ YearFromTime t ≤ 275760 := by
  unfold YearFromTime TimeFromYear DayFromYear Day msPerDay
  simp only
  split_ifs <;> omega

theorem TimeClip_some (t : Int) (hlo : -8640000000000000 ≤ t) (hhi : t ≤ 8640000000000000) :
    TimeClip (some t) = some t := by
  unfold TimeClip
  have : ¬ t.natAbs > 8640000000000000 := by omega
  simp [this]

/-- Every time value in the Date range is a safe integer. -/
theorem dateRange_safe (t : Int) (hlo : -8640000000000000 ≤ t) (hhi : t ≤ 8640000000000000) :
    t.natAbs < 9007199254740992 := by
  omega

/-- From a valid Date the script builds the text of the fields the getters
return, the year unpadded and the rest with two digits. -/
theorem formatDate_some (t : Int) : formatDate (some t) = (dateFields t).text := by
  have hf := (dateFields_isOf t).1
  obtain ⟨⟨m1, m2⟩, ⟨d1, d2⟩, ⟨hh1, hh2⟩, ⟨mi1, mi2⟩, ⟨s1, s2⟩⟩ := hf
  replace m1 : 1 ≤ MonthFromTime t + 1 := m1
  replace m2 : MonthFromTime t + 1 ≤ 12 := m2
  replace d1 : 1 ≤ DateFromTime t := d1
  replace d2 : DateFromTime t ≤ monthLength (YearFromTime t) (MonthFromTime t + 1) := d2
  replace hh1 : 0 ≤ HourFromTime t := hh1
  replace hh2 : HourFromTime t < 24 := hh2
  replace mi1 : 0 ≤ MinFromTime t := mi1
  replace mi2 : MinFromTime t < 60 := mi2
  replace s1 : 0 ≤ SecFromTime t := s1
  replace s2 : SecFromTime t < 60 := s2
  have hd3 : DateFromTime t < 100 := by
    unfold monthLength at d2
    split_ifs at d2 <;> omega
  unfold formatDate
  simp only [getUTCFullYear, getUTCMonth, getUTCDate, getUTCHours,
    getUTCMinutes, getUTCSeconds, Option.map_some', numStr]
  rw [numberToString_small (YearFromTime t)]
  rw [padStart_two (MonthFromTime t + 1) (by omega) (by omega),
    padStart_two (DateFromTime t) (by omega) (by omega),
    padStart_two (HourFromTime t) (by omega) (by omega),
    padStart_two (MinFromTime t) (by omega) (by omega),
    padStart_two (SecFromTime t) (by omega) (by omega)]
  rfl

/-- On a non-zero time value in the Date range the script returns the text of
the fields the getters return. -/
theorem formatTimestamp_num (parse : String → Option Int) (ts : Int) (h0 : ts ≠ 0)
    (hlo : -8640000000000000 ≤ ts) (hhi : ts ≤ 8640000000000000) :
    formatTimestamp parse (.num ⟨ts, dateRange_safe ts hlo hhi⟩) = .ok (dateFields ts).text := by
  have ht : (JSVal.num ⟨ts, dateRange_safe ts hlo hhi⟩).truthy = true := by
    simp [JSVal.truthy, h0]
  unfold formatTimestamp
  simp only [ht, Bool.not_true, Bool.false_eq_true, if_false, newDate, ToNumber,
    TimeClip_some ts hlo hhi]
  rw [formatDate_some ts]

/-! ## Claims about `formatTimestamp` -/

theorem YearFromTime_four_digits (t : Int) (hlo : -30610224000000 ≤ t)
    (hhi : t ≤ 253402300799999) : 1000 ≤ YearFromTime t ∧ YearFromTime t ≤ 9999 := by
  constructor
  · apply YearFromTime_largest
    have : TimeFromYear 1000 = -30610224000000 := by decide
    omega
  · by_contra h
    have h1 : DayFromYear 10000 ≤ DayFromYear (YearFromTime t) := by
      rcases eq_or_lt_of_le (show (10000 : Int) ≤ YearFromTime t by omega) with h2 | h2
      · rw [← h2]
      · exact le_of_lt (DayFromYear_lt _ _ h2)
    have h3 := (YearFromTime_spec t).1
    have h4 : DayFromYear 10000 = 2932897 := by decide
    unfold TimeFromYear msPerDay at h3
    omega

theorem text_layout (f : UTCFields) (hv : f.Valid) (hy : 1000 ≤ f.year ∧ f.year ≤ 9999) :
    f.text.length = 19 ∧ matchesLayout fixedWidthLayout f.text.data = true := by
  obtain ⟨⟨m1, m2⟩, ⟨d1, d2⟩, ⟨hh1, hh2⟩, ⟨mi1, mi2⟩, ⟨s1, s2⟩⟩ := hv
  have hd3 : f.day < 100 := by
    unfold monthLength at d2
    split_ifs at d2 <;> omega
  obtain ⟨y, hyy⟩ := Int.eq_ofNat_of_zero_le (show (0 : Int) ≤ f.year by omega)
  have hy4 : toString f.year = String.mk [digitChar (y / 1000), digitChar (y / 100 % 10),
      digitChar (y / 10 % 10), digitChar (y % 10)] := by
    rw [hyy, toString_natCast, natDigits_four y (by omega) (by omega)]
  unfold UTCFields.text
  rw [hy4, twoDigits_chars f.month (by omega) (by omega), twoDigits_chars f.day (by omega) hd3,
    twoDigits_chars f.hour hh1 (by omega), twoDigits_chars f.minute mi1 (by omega),
    twoDigits_chars f.second s1 (by omega)]
  have dg : ∀ k : Nat, (digitChar (k % 10)).isDigit = true :=
    fun k => isDigit_digitChar _ (Nat.mod_lt _ (by decide))
  have dy : (digitChar (y / 1000)).isDigit = true := isDigit_digitChar _ (by omega)
  have dm : (digitChar (f.month.toNat / 10)).isDigit = true := isDigit_digitChar _ (by omega)
  have dd : (digitChar (f.day.toNat / 10)).isDigit = true := isDigit_digitChar _ (by omega)
  have dh : (digitChar (f.hour.toNat / 10)).isDigit = true := isDigit_digitChar _ (by omega)
  have dmi : (digitChar (f.minute.toNat / 10)).isDigit = true := isDigit_digitChar _ (by omega)
  have ds : (digitChar (f.second.toNat / 10)).isDigit = true := isDigit_digitChar _ (by omega)
  constructor
  · rfl
  · simp only [String.data_append, List.cons_append, List.nil_append, List.append_nil,
      fixedWidthLayout, matchesLayout, dg, dy, dm, dd, dh, dmi, ds]
    simp

/-- C1. `formatTimestamp` returns the placeholder `—` for every falsy input, and
so for `undefined`, `null`, the number 0, NaN, the empty string and `false`;
in particular the result is never `1970-01-01 00:00:00` there. -/
theorem formatTimestamp_falsy (parse : String → Option Int) (ts : JSVal)
    (h : ts.truthy = false ∨ ts = .undefined ∨ ts = .null ∨ ts = .num SafeInteger.zero ∨
      ts = .nan ∨ ts = .str "" ∨ ts = .bool false) :
    formatTimestamp parse ts = .ok "—" ∧
      formatTimestamp parse ts ≠ .ok "1970-01-01 00:00:00" := by
  have hf : ts.truthy = false := by
    rcases h with h | h | h | h | h | h | h
    · exact h
    all_goals subst h; rfl
  have e : formatTimestamp parse ts = .ok "—" := by
    unfold formatTimestamp
    simp [hf, placeholder]
  rw [e]
  exact ⟨rfl, by decide⟩

theorem formatTimestamp_falsy_witness :
    JSVal.truthy (.num SafeInteger.zero) = false ∧
      formatTimestamp noParse (.num SafeInteger.zero) = .ok "—" ∧
      formatTimestamp noParse (.num SafeInteger.zero) ≠ .ok "1970-01-01 00:00:00" :=
  ⟨rfl, formatTimestamp_falsy noParse (.num SafeInteger.zero) (Or.inl rfl)⟩

/-- C2. For every non-zero integer epoch-millisecond value `ts` in the Date
range, `formatTimestamp(ts)` is the text `Y-M-D h:m:s` of the UTC calendar
fields of the instant `ts` (proleptic Gregorian year, month 1-12, day of month,
hour, minute, second; milliseconds dropped), of which there is exactly one set,
whatever `Date.parse` and the host are; and `formatTimestamp(1705309503000)` is
`2024-01-15 09:05:03`. -/
theorem formatTimestamp_utc_fields (parse : String → Option Int) (ts : Int) (h0 : ts ≠ 0)
    (hlo : -8640000000000000 ≤ ts) (hhi : ts ≤ 8640000000000000) :
    (∃ f : UTCFields, f.IsOf ts ∧
      formatTimestamp parse (.num ⟨ts, dateRange_safe ts hlo hhi⟩) = .ok f.text) ∧
    (∀ f : UTCFields, f.IsOf ts →
      formatTimestamp parse (.num ⟨ts, dateRange_safe ts hlo hhi⟩) = .ok f.text) ∧
    formatTimestamp parse (.num ⟨1705309503000, by decide⟩) = .ok "2024-01-15 09:05:03" :=
  ⟨⟨dateFields ts, dateFields_isOf ts, formatTimestamp_num parse ts h0 hlo hhi⟩,
    fun f hf => by rw [isOf_unique f ts hf]; exact formatTimestamp_num parse ts h0 hlo hhi, by
    rw [formatTimestamp_num parse 1705309503000 (by decide) (by decide) (by decide)]
    decide⟩

theorem formatTimestamp_utc_fields_witness :
    ((1705309503000 : Int) ≠ 0 ∧ (-8640000000000000 : Int) ≤ 1705309503000 ∧
      (1705309503000 : Int) ≤ 8640000000000000) ∧
    ((∃ f : UTCFields, f.IsOf 1705309503000 ∧
        formatTimestamp noParse (.num ⟨1705309503000, by decide⟩) = .ok f.text) ∧
      (∀ f : UTCFields, f.IsOf 1705309503000 →
        formatTimestamp noParse (.num ⟨1705309503000, by decide⟩) = .ok f.text) ∧
      formatTimestamp noParse (.num ⟨1705309503000, by decide⟩) = .ok "2024-01-15 09:05:03") :=
  ⟨by decide, formatTimestamp_utc_fields noParse 1705309503000 (by decide) (by decide)
    (by decide)⟩

/-- C3, as stated, fails: the instant 10000-01-01T00:00:00Z is in the Date
range and is printed with a five-digit year, 20 characters in all; the year 1
is printed with one digit. -/
theorem formatTimestamp_width_counterexample :
    ((253402300800000 : Int) ≠ 0 ∧ (-8640000000000000 : Int) ≤ 253402300800000 ∧
      (253402300800000 : Int) ≤ 8640000000000000) ∧
    formatTimestamp noParse (.num ⟨253402300800000, by decide⟩) = .ok "10000-01-01 00:00:00" ∧
    "10000-01-01 00:00:00".length = 20 ∧
    matchesLayout fixedWidthLayout "10000-01-01 00:00:00".data = false ∧
    formatTimestamp noParse (.num ⟨-62135596800000, by decide⟩) = .ok "1-01-01 00:00:00" := by
  decide

/-- C3, amended. For every non-zero epoch-millisecond value from
1000-01-01T00:00:00.000Z to 9999-12-31T23:59:59.999Z the string returned by
`formatTimestamp` has exactly 19 characters laid out as `dddd-dd-dd dd:dd:dd`,
each `d` a decimal digit. -/
theorem formatTimestamp_fixed_width (parse : String → Option Int) (ts : Int) (h0 : ts ≠ 0)
    (hlo : -30610224000000 ≤ ts) (hhi : ts ≤ 253402300799999) :
    ∃ s : String,
      formatTimestamp parse (.num ⟨ts, dateRange_safe ts (by omega) (by omega)⟩) = .ok s ∧
      s.length = 19 ∧ matchesLayout fixedWidthLayout s.data = true :=
  ⟨(dateFields ts).text, formatTimestamp_num parse ts h0 (by omega) (by omega),
    text_layout (dateFields ts) (dateFields_isOf ts).1 (YearFromTime_four_digits ts hlo hhi)⟩

theorem formatTimestamp_fixed_width_witness :
    ((1705309503000 : Int) ≠ 0 ∧ (-30610224000000 : Int) ≤ 1705309503000 ∧
      (1705309503000 : Int) ≤ 253402300799999) ∧
    (∃ s : String,
      formatTimestamp noParse (.num ⟨1705309503000, by decide⟩) = .ok s ∧
      s.length = 19 ∧ matchesLayout fixedWidthLayout s.data = true) :=
  ⟨by decide, formatTimestamp_fixed_width noParse 1705309503000 (by decide) (by decide)
    (by decide)⟩


/-! ## How `render` runs -/

theorem formatTimestamp_falsy_aux (parse : String → Option Int) (x : JSVal)
    (h : x.truthy = false) : formatTimestamp parse x = .ok "—" := by
  unfold formatTimestamp
  simp [h, placeholder]

theorem appendRows_textContent (parse : String → Option Int) (xs : List JSVal) :
    ∀ dom : Display, (appendRows parse xs dom).1.textContent = dom.textContent := by
  induction xs with
  | nil => intro dom; rfl
  | cons wm rest ih =>
    intro dom
    unfold appendRows
    cases h : buildRow parse wm with
    | error e => rfl
    | ok row =>
      simp only []
      rw [ih]
      rfl

theorem rebuildTable_textContent (parse : String → Option Int) (data : JSVal) (dom : Display) :
    (rebuildTable parse data dom).1.textContent = dom.textContent := by
  unfold rebuildTable
  simp only []
  cases data.getProp "joinWatermarks" with
  | error e => rfl
  | ok v =>
    simp only []
    split
    · rw [appendRows_textContent]
      rfl
    · rfl

theorem rebuildTable_obj (parse : String → Option Int) (fields : List (String × JSVal))
    (dom : Display) :
    rebuildTable parse (.obj fields) dom =
      match logicalOr (field fields "joinWatermarks") (.arr []) with
      | .arr xs => appendRows parse xs dom.clearTable
      | _ => (dom.clearTable, some .typeError) := rfl

/-- A loop that ends without an exception has appended one row per entry, in
order, each the row built from its entry. -/
theorem appendRows_none (parse : String → Option Int) (xs : List JSVal) :
    ∀ dom : Display, (appendRows parse xs dom).2 = none →
    ∃ rows : List (List String), rows.map Except.ok = xs.map (buildRow parse) ∧
      (appendRows parse xs dom).1.joinWatermarkTable = dom.joinWatermarkTable ++ rows := by
  induction xs with
  | nil =>
    intro dom _
    exact ⟨[], rfl, by simp [appendRows]⟩
  | cons wm rest ih =>
    intro dom h
    unfold appendRows at h ⊢
    cases hrow : buildRow parse wm with
    | error e =>
      rw [hrow] at h
      exact absurd h (by simp)
    | ok row =>
      rw [hrow] at h
      simp only [] at h ⊢
      obtain ⟨rows, h1, h2⟩ := ih (dom.appendRow row) h
      refine ⟨row :: rows, ?_, ?_⟩
      · simp [h1, hrow]
      · rw [h2]
        simp [Display.appendRow]

/-- A loop all of whose rows can be built ends without an exception. -/
theorem appendRows_ok (parse : String → Option Int) (xs : List JSVal) :
    ∀ dom : Display, (∀ x ∈ xs, ∃ row, buildRow parse x = .ok row) →
      (appendRows parse xs dom).2 = none := by
  induction xs with
  | nil => intro dom _; rfl
  | cons wm rest ih =>
    intro dom h
    obtain ⟨row, hrow⟩ := h wm (List.mem_cons_self _ _)
    unfold appendRows
    rw [hrow]
    exact ih _ (fun x hx => h x (List.mem_cons_of_mem _ hx))

theorem next_assignText_none (r : Run) (t : Target) (x : Except JSError String)
    (h : (r.next (assignText t x)).2 = none) :
    r.2 = none ∧ ∃ s, x = .ok s ∧ r.next (assignText t x) = (r.1.setText t s, none) := by
  obtain ⟨dom, _ | e⟩ := r
  · cases x with
    | error e => exact absurd h (by simp [Run.next, assignText])
    | ok s => exact ⟨rfl, s, rfl, rfl⟩
  · exact absurd h (by simp [Run.next])

theorem next_assignText_ok (r : Run) (t : Target) (s : String) (h : r.2 = none) :
    r.next (assignText t (.ok s)) = (r.1.setText t s, none) := by
  obtain ⟨dom, _ | e⟩ := r
  · rfl
  · exact absurd h (by simp)

/-- When the six counter writes raise nothing, each counter element holds the
string of its field and nothing else has changed. -/
theorem writeCounters_none (data : JSVal) (dom : Display)
    (h : (writeCounters data dom).2 = none) :
    (∀ c : Target, c.isCounter = true →
      counterText data c = .ok ((writeCounters data dom).1.textContent c)) ∧
    (writeCounters data dom).1.textContent .lastUpdatedAt = dom.textContent .lastUpdatedAt ∧
    (writeCounters data dom).1.joinWatermarkTable = dom.joinWatermarkTable := by
  unfold writeCounters writeCounter at h ⊢
  have e0 : assignText .clicksReceived (counterText data .clicksReceived) dom =
      Run.next (dom, none) (assignText .clicksReceived (counterText data .clicksReceived)) := rfl
  rw [e0] at h ⊢
  obtain ⟨h5, s6, x6, r6⟩ := next_assignText_none _ _ _ h
  obtain ⟨h4, s5, x5, r5⟩ := next_assignText_none _ _ _ h5
  obtain ⟨h3, s4, x4, r4⟩ := next_assignText_none _ _ _ h4
  obtain ⟨h2, s3, x3, r3⟩ := next_assignText_none _ _ _ h3
  obtain ⟨h1, s2, x2, r2⟩ := next_assignText_none _ _ _ h2
  obtain ⟨_, s1, x1, r1⟩ := next_assignText_none _ _ _ h1
  rw [r6, r5, r4, r3, r2, r1]
  refine ⟨?_, rfl, rfl⟩
  intro c hc
  cases c
  · rw [x1]; rfl
  · rw [x2]; rfl
  · rw [x3]; rfl
  · rw [x4]; rfl
  · rw [x5]; rfl
  · rw [x6]; rfl
  · exact absurd hc (by decide)

/-- The six counter writes raise nothing when each counter has a string. -/
theorem writeCounters_ok (data : JSVal) (dom : Display)
    (h : ∀ c : Target, c.isCounter = true → ∃ s, counterText data c = .ok s) :
    (writeCounters data dom).2 = none := by
  obtain ⟨s1, x1⟩ := h .clicksReceived rfl
  obtain ⟨s2, x2⟩ := h .pageViewsReceived rfl
  obtain ⟨s3, x3⟩ := h .pageViewsEmitted rfl
  obtain ⟨s4, x4⟩ := h .pageViewsUpdated rfl
  obtain ⟨s5, x5⟩ := h .clickStateSize rfl
  obtain ⟨s6, x6⟩ := h .pageViewStateSize rfl
  unfold writeCounters writeCounter
  rw [x1, x2, x3, x4, x5, x6]
  rfl

theorem loadMetrics_decoded (parse : String → Option Int) (data : JSVal) (dom : Display) :
    (loadMetrics parse (.decoded data) dom).display = (render parse data dom).1 ∧
    (loadMetrics parse (.decoded data) dom).rejection = none ∧
    ((render parse data dom).2 = none → (loadMetrics parse (.decoded data) dom).logged = []) := by
  unfold loadMetrics tryBlock
  rcases h : render parse data dom with ⟨d, _ | e⟩ <;> simp [h]

/-- The `lastUpdatedAt` element after a render whose counter writes raised
nothing and whose `lastUpdatedAt` text could be computed. -/
theorem render_lastUpdated (parse : String → Option Int) (data : JSVal) (dom : Display)
    (s : String) (hw : (writeCounters data dom).2 = none)
    (hs : lastUpdatedText parse data = .ok s) :
    (render parse data dom).1.textContent .lastUpdatedAt = s := by
  unfold render writeLastUpdated
  rw [hs, next_assignText_ok _ _ _ hw]
  simp only [Run.next]
  rw [rebuildTable_textContent]
  simp [Display.setText]

/-- What a render that raises nothing has written: every counter element holds
the string of its field, the `lastUpdatedAt` element the text computed for it,
and the table one row per entry of the `joinWatermarks` array. -/
theorem render_none (parse : String → Option Int) (fields : List (String × JSVal))
    (dom : Display) (h : (render parse (.obj fields) dom).2 = none) :
    (∀ c : Target, c.isCounter = true →
      counterText (.obj fields) c = .ok ((render parse (.obj fields) dom).1.textContent c)) ∧
    lastUpdatedText parse (.obj fields) =
      .ok ((render parse (.obj fields) dom).1.textContent .lastUpdatedAt) ∧
    ∃ xs : List JSVal, logicalOr (field fields "joinWatermarks") (.arr []) = .arr xs ∧
      (render parse (.obj fields) dom).1.joinWatermarkTable.map Except.ok =
        xs.map (buildRow parse) := by
  unfold render at h ⊢
  have hlast : ((writeCounters (.obj fields) dom).next
      (writeLastUpdated parse (.obj fields))).2 = none := by
    rcases hr : (writeCounters (.obj fields) dom).next (writeLastUpdated parse (.obj fields))
      with ⟨d, _ | e⟩
    · rfl
    · rw [hr] at h
      exact absurd h (by simp [Run.next])
  unfold writeLastUpdated at h hlast ⊢
  obtain ⟨hw, s, hs, hr⟩ := next_assignText_none _ _ _ hlast
  obtain ⟨hc, _, htab⟩ := writeCounters_none (.obj fields) dom hw
  rw [hr] at h ⊢
  simp only [Run.next] at h ⊢
  have htext := rebuildTable_textContent parse (.obj fields)
    ((writeCounters (.obj fields) dom).1.setText .lastUpdatedAt s)
  refine ⟨?_, ?_, ?_⟩
  · intro c hcc
    rw [htext, hc c hcc]
    cases c <;> first | (exact absurd hcc (by decide)) | rfl
  · rw [htext, hs]
    simp [Display.setText]
  · rw [rebuildTable_obj] at h ⊢
    cases hv : logicalOr (field fields "joinWatermarks") (.arr []) with
    | arr xs =>
      rw [hv] at h
      simp only [] at h ⊢
      obtain ⟨rows, h1, h2⟩ := appendRows_none parse xs _ h
      refine ⟨xs, rfl, ?_⟩
      rw [h2]
      simpa [Display.clearTable] using h1
    | _ =>
      rw [hv] at h
      exact absurd h (by simp)

/-- A render raises nothing when its counters have strings, its `lastUpdatedAt`
text can be computed and every row of its `joinWatermarks` array can be built. -/
theorem render_ok (parse : String → Option Int) (fields : List (String × JSVal))
    (dom : Display) (xs : List JSVal)
    (hc : ∀ c : Target, c.isCounter = true → ∃ s, counterText (.obj fields) c = .ok s)
    (hs : ∃ s, lastUpdatedText parse (.obj fields) = .ok s)
    (hjw : logicalOr (field fields "joinWatermarks") (.arr []) = .arr xs)
    (hxs : ∀ x ∈ xs, ∃ row, buildRow parse x = .ok row) :
    (render parse (.obj fields) dom).2 = none := by
  obtain ⟨s, hs⟩ := hs
  have hw := writeCounters_ok (.obj fields) dom hc
  unfold render writeLastUpdated
  rw [hs, next_assignText_ok _ _ _ hw]
  simp only [Run.next]
  rw [rebuildTable_obj, hjw]
  exact appendRows_ok parse xs _ hxs

/-! ## `toISOString` -/

theorem paddedDigits_zero (w : Nat) : paddedDigits w 0 = List.replicate w '0' := by
  induction w with
  | zero => rfl
  | succ k ih =>
    show paddedDigits k (0 / 10) ++ [digitChar (0 % 10)] = _
    rw [Nat.zero_div, ih, List.replicate_succ']
    rfl

/-- Padding the digits with zeros on the left writes the number with exactly
`w` digits. -/
theorem padded_natDigits (w : Nat) : ∀ n : Nat, 0 < w → n < 10 ^ w →
    List.replicate (w - (natDigits n).length) '0' ++ natDigits n = paddedDigits w n := by
  induction w with
  | zero => intro n h; omega
  | succ k ih =>
    intro n _ hn
    show _ = paddedDigits k (n / 10) ++ [digitChar (n % 10)]
    by_cases h10 : n < 10
    · have e1 : n / 10 = 0 := by omega
      have e2 : n % 10 = n := by omega
      rw [natDigits_one n h10, e1, e2, paddedDigits_zero]
      simp
    · have hk : 0 < k := by
        rcases Nat.eq_zero_or_pos k with h | h
        · subst h; simp at hn; omega
        · exact h
      have hlt : n / 10 < 10 ^ k := by
        rw [pow_succ] at hn
        omega
      rw [natDigits_eq n, if_neg h10, ← ih (n / 10) hk hlt]
      simp

theorem zeroPad_eq (w : Nat) (n : Int) (h0 : 0 ≤ n) (hw : 0 < w) (hn : n.toNat < 10 ^ w) :
    zeroPad w n = String.mk (paddedDigits w n.toNat) := by
  obtain ⟨m, rfl⟩ := Int.eq_ofNat_of_zero_le h0
  simp only [Int.toNat_ofNat] at hn ⊢
  unfold zeroPad padStart
  rw [numberToString_small, toString_natCast]
  rw [← padded_natDigits w m hw hn]
  rfl

theorem isoYear_eq (y : Int) (hlo : -271821 ≤ y) (hhi : y ≤ 275760) :
    isoYear y = isoYearText y := by
  unfold isoYear isoYearText
  by_cases h1 : 0 ≤ y ∧ y ≤ 9999
  · rw [if_pos h1, if_pos h1, zeroPad_eq 4 y h1.1 (by decide) (by omega)]
  · rw [if_neg h1, if_neg h1]
    by_cases h2 : y < 0
    · rw [if_pos h2, if_pos h2, zeroPad_eq 6 (-y) (by omega) (by decide) (by omega)]
    · rw [if_neg h2, if_neg h2, zeroPad_eq 6 y (by omega) (by decide) (by omega)]

theorem ms_within_second (x t : Int) (h1 : x * 1000 ≤ t) (h2 : t < x * 1000 + 1000) :
    t = x * 1000 + t % 1000 ∧ 0 ≤ t % 1000 ∧ t % 1000 < 1000 := by
  omega

/-- On a time value in the Date range `toISOString` writes the UTC calendar
fields and the milliseconds in ISO-8601 form. -/
theorem toISOString_some (t : Int) (hlo : -8640000000000000 ≤ t) (hhi : t ≤ 8640000000000000) :
    toISOString (some t) = .ok ((dateFields t).isoText (msFromTime t)) ∧
      t = (dateFields t).startMs + msFromTime t := by
  obtain ⟨⟨⟨m1, m2⟩, ⟨d1, d2⟩, ⟨hh1, hh2⟩, ⟨mi1, mi2⟩, ⟨s1, s2⟩⟩, st1, st2⟩ := dateFields_isOf t
  have hy := YearFromTime_range t hlo hhi
  replace m1 : 1 ≤ MonthFromTime t + 1 := m1
  replace m2 : MonthFromTime t + 1 ≤ 12 := m2
  replace d1 : 1 ≤ DateFromTime t := d1
  replace d2 : DateFromTime t ≤ monthLength (YearFromTime t) (MonthFromTime t + 1) := d2
  replace hh1 : 0 ≤ HourFromTime t := hh1
  replace hh2 : HourFromTime t < 24 := hh2
  replace mi1 : 0 ≤ MinFromTime t := mi1
  replace mi2 : MinFromTime t < 60 := mi2
  replace s1 : 0 ≤ SecFromTime t := s1
  replace s2 : SecFromTime t < 60 := s2
  have hd3 : DateFromTime t < 100 := by
    unfold monthLength at d2
    split_ifs at d2 <;> omega
  have hms := ms_within_second _ t st1 st2
  have hms0 : 0 ≤ msFromTime t := hms.2.1
  have hms1 : msFromTime t < 1000 := hms.2.2
  refine ⟨?_, hms.1⟩
  unfold toISOString UTCFields.isoText
  simp only [zeroPad] at *
  rw [isoYear_eq _ hy.1 hy.2, padStart_two (MonthFromTime t + 1) (by omega) (by omega),
    padStart_two (DateFromTime t) (by omega) (by omega),
    padStart_two (HourFromTime t) (by omega) (by omega),
    padStart_two (MinFromTime t) (by omega) (by omega),
    padStart_two (SecFromTime t) (by omega) (by omega)]
  have h3 := zeroPad_eq 3 (msFromTime t) hms0 (by decide) (by omega)
  unfold zeroPad at h3
  rw [h3]
  rfl

theorem paddedDigits_three (n : Nat) :
    paddedDigits 3 n = [digitChar (n / 10 / 10 % 10), digitChar (n / 10 % 10),
      digitChar (n % 10)] := by
  simp [paddedDigits]

theorem paddedDigits_four (n : Nat) :
    paddedDigits 4 n = [digitChar (n / 10 / 10 / 10 % 10), digitChar (n / 10 / 10 % 10),
      digitChar (n / 10 % 10), digitChar (n % 10)] := by
  simp [paddedDigits]

theorem isoText_layout (f : UTCFields) (ms : Int) (hv : f.Valid)
    (hy : 0 ≤ f.year ∧ f.year ≤ 9999) :
    (f.isoText ms).length = 24 ∧ matchesLayout isoLayout (f.isoText ms).data = true := by
  obtain ⟨⟨m1, m2⟩, ⟨d1, d2⟩, ⟨hh1, hh2⟩, ⟨mi1, mi2⟩, ⟨s1, s2⟩⟩ := hv
  have hd3 : f.day < 100 := by
    unfold monthLength at d2
    split_ifs at d2 <;> omega
  unfold UTCFields.isoText isoYearText
  rw [if_pos hy, paddedDigits_three, paddedDigits_four, twoDigits_chars f.month (by omega) (by omega),
    twoDigits_chars f.day (by omega) hd3,
    twoDigits_chars f.hour hh1 (by omega), twoDigits_chars f.minute mi1 (by omega),
    twoDigits_chars f.second s1 (by omega)]
  have dg : ∀ k : Nat, (digitChar (k % 10)).isDigit = true :=
    fun k => isDigit_digitChar _ (Nat.mod_lt _ (by decide))
  have dm : (digitChar (f.month.toNat / 10)).isDigit = true := isDigit_digitChar _ (by omega)
  have dd : (digitChar (f.day.toNat / 10)).isDigit = true := isDigit_digitChar _ (by omega)
  have dh : (digitChar (f.hour.toNat / 10)).isDigit = true := isDigit_digitChar _ (by omega)
  have dmi : (digitChar (f.minute.toNat / 10)).isDigit = true := isDigit_digitChar _ (by omega)
  have ds : (digitChar (f.second.toNat / 10)).isDigit = true := isDigit_digitChar _ (by omega)
  constructor
  · rfl
  · simp only [String.data_append, List.cons_append, List.nil_append, List.append_nil,
      isoLayout, matchesLayout, dg, dm, dd, dh, dmi, ds]
    simp


/-! ## Primitive fields never raise -/

theorem toStr_primitive (v : JSVal) (h : v.isPrimitive = true) : ∃ s, v.toStr = .ok s := by
  cases v with
  | arr xs => exact absurd h (by simp [JSVal.isPrimitive])
  | obj fields => exact absurd h (by simp [JSVal.isPrimitive])
  | bool b => cases b <;> exact ⟨_, rfl⟩
  | undefined => exact ⟨_, rfl⟩
  | null => exact ⟨_, rfl⟩
  | nan => exact ⟨_, rfl⟩
  | num n => exact ⟨_, rfl⟩
  | float text clip => exact ⟨_, rfl⟩
  | str s => exact ⟨_, rfl⟩

theorem textOf_primitive (v : JSVal) (h : v.isPrimitive = true) : ∃ s, textOf v = .ok s := by
  unfold textOf
  cases hn : v.isNullish with
  | true => exact ⟨_, rfl⟩
  | false => exact toStr_primitive v h

theorem counterText_obj (fields : List (String × JSVal)) (c : Target) :
    counterText (.obj fields) c =
      textOf (nullishOr (field fields c.id) (.num SafeInteger.zero)) := rfl

theorem counterText_primitive (fields : List (String × JSVal)) (c : Target)
    (h : (field fields c.id).isPrimitive = true) :
    ∃ s, counterText (.obj fields) c = .ok s := by
  rw [counterText_obj]
  apply textOf_primitive
  unfold nullishOr
  cases hn : (field fields c.id).isNullish with
  | true => rfl
  | false => simpa using h

theorem cell_eq (v : JSVal) :
    cell v = if v.isNullish then .ok "—" else v.toStr := by
  unfold cell textOf nullishOr
  cases h : v.isNullish with
  | true => rfl
  | false => simp [h]

theorem cell_primitive (v : JSVal) (h : v.isPrimitive = true) : ∃ s, cell v = .ok s := by
  rw [cell_eq]
  cases hn : v.isNullish with
  | true => exact ⟨_, rfl⟩
  | false => simpa using toStr_primitive v h

theorem newDate_primitive (parse : String → Option Int) (v : JSVal)
    (h : v.isPrimitive = true) : ∃ d, newDate parse v = .ok d := by
  cases v with
  | arr xs => exact absurd h (by simp [JSVal.isPrimitive])
  | obj fields => exact absurd h (by simp [JSVal.isPrimitive])
  | bool b => exact ⟨_, rfl⟩
  | undefined => exact ⟨_, rfl⟩
  | null => exact ⟨_, rfl⟩
  | nan => exact ⟨_, rfl⟩
  | num n => exact ⟨_, rfl⟩
  | float text clip => exact ⟨_, rfl⟩
  | str s => exact ⟨_, rfl⟩

theorem formatTimestamp_primitive (parse : String → Option Int) (v : JSVal)
    (h : v.isPrimitive = true) : ∃ s, formatTimestamp parse v = .ok s := by
  obtain ⟨d, hd⟩ := newDate_primitive parse v h
  unfold formatTimestamp
  rw [hd]
  cases v.truthy <;> exact ⟨_, rfl⟩

/-! ## Rows -/

/-- The guard `x ? formatTimestamp(x) : '—'` and the cell around it add nothing
to `formatTimestamp`, which already returns the placeholder on a falsy value. -/
theorem timeCell_eq (parse : String → Option Int) (x : JSVal) :
    timeCell parse x = formatTimestamp parse x := by
  unfold timeCell
  cases h : x.truthy with
  | true =>
    simp only [if_true]
    cases formatTimestamp parse x with
    | error e => rfl
    | ok s => rfl
  | false =>
    rw [formatTimestamp_falsy_aux parse x h]
    rfl

theorem buildRow_obj (parse : String → Option Int) (fields : List (String × JSVal)) :
    buildRow parse (.obj fields) =
      (cell (field fields "partition")).bind fun c1 =>
      (formatTimestamp parse (field fields "pageViewsMaxEventTime")).bind fun c2 =>
      (formatTimestamp parse (field fields "adClicksMaxEventTime")).bind fun c3 =>
      (formatTimestamp parse (field fields "joinWatermark")).bind fun c4 =>
      .ok [c1, c2, c3, c4] := by
  rw [← timeCell_eq, ← timeCell_eq, ← timeCell_eq]
  rfl

/-- A row is built exactly when its four cells have strings, and it is those
four strings in order. -/
theorem buildRow_ok_iff (parse : String → Option Int) (fields : List (String × JSVal))
    (row : List String) :
    buildRow parse (.obj fields) = .ok row ↔
      ∃ c1 c2 c3 c4 : String, cell (field fields "partition") = .ok c1 ∧
        formatTimestamp parse (field fields "pageViewsMaxEventTime") = .ok c2 ∧
        formatTimestamp parse (field fields "adClicksMaxEventTime") = .ok c3 ∧
        formatTimestamp parse (field fields "joinWatermark") = .ok c4 ∧
        row = [c1, c2, c3, c4] := by
  rw [buildRow_obj]
  cases cell (field fields "partition") with
  | error e => simp [Except.bind]
  | ok c1 =>
    cases formatTimestamp parse (field fields "pageViewsMaxEventTime") with
    | error e => simp [Except.bind]
    | ok c2 =>
      cases formatTimestamp parse (field fields "adClicksMaxEventTime") with
      | error e => simp [Except.bind]
      | ok c3 =>
        cases formatTimestamp parse (field fields "joinWatermark") with
        | error e => simp [Except.bind]
        | ok c4 =>
          simp only [Except.bind]
          constructor
          · intro h
            exact ⟨c1, c2, c3, c4, rfl, rfl, rfl, rfl, (Except.ok.inj h).symm⟩
          · rintro ⟨a1, a2, a3, a4, h1, h2, h3, h4, rfl⟩
            rw [Except.ok.inj h1, Except.ok.inj h2, Except.ok.inj h3, Except.ok.inj h4]

/-- A row object whose four fields are primitives always gets its row. -/
theorem buildRow_primitive (parse : String → Option Int) (fields : List (String × JSVal))
    (hp : (field fields "partition").isPrimitive = true)
    (h1 : (field fields "pageViewsMaxEventTime").isPrimitive = true)
    (h2 : (field fields "adClicksMaxEventTime").isPrimitive = true)
    (h3 : (field fields "joinWatermark").isPrimitive = true) :
    ∃ row, buildRow parse (.obj fields) = .ok row := by
  obtain ⟨c1, e1⟩ := cell_primitive _ hp
  obtain ⟨c2, e2⟩ := formatTimestamp_primitive parse _ h1
  obtain ⟨c3, e3⟩ := formatTimestamp_primitive parse _ h2
  obtain ⟨c4, e4⟩ := formatTimestamp_primitive parse _ h3
  exact ⟨[c1, c2, c3, c4], (buildRow_ok_iff parse fields _).mpr
    ⟨c1, c2, c3, c4, e1, e2, e3, e4, rfl⟩⟩

/-! ## Claims about `loadMetrics` -/

theorem YearFromTime_iso_digits (t : Int) (hlo : -62167219200000 ≤ t)
    (hhi : t ≤ 253402300799999) : 0 ≤ YearFromTime t ∧ YearFromTime t ≤ 9999 := by
  constructor
  · apply YearFromTime_largest
    have : TimeFromYear 0 = -62167219200000 := by decide
    omega
  · by_contra h
    have h1 : DayFromYear 10000 ≤ DayFromYear (YearFromTime t) := by
      rcases eq_or_lt_of_le (show (10000 : Int) ≤ YearFromTime t by omega) with h2 | h2
      · rw [← h2]
      · exact le_of_lt (DayFromYear_lt _ _ h2)
    have h3 := (YearFromTime_spec t).1
    have h4 : DayFromYear 10000 = 2932897 := by decide
    unfold TimeFromYear msPerDay at h3
    omega

/-- C4, as stated, fails.  The Number 1e21 is a non-negative integer that a
double holds exactly; it is not a safe integer, `Number::toString` gives it
`1e+21` (exponent form starts at 10^21) and TimeClip gives it NaN, so it is
`float "1e+21" none`.  The snapshot `{clicksReceived: 1e21}` renders to the
end and the element shows `1e+21`, not the decimal integer string. -/
theorem counter_exponent_counterexample :
    (render noParse (.obj [("clicksReceived", .float "1e+21" none)]) staleDisplay).2 = none ∧
    (loadMetrics noParse (.decoded (.obj [("clicksReceived", .float "1e+21" none)]))
      staleDisplay).logged = [] ∧
    (loadMetrics noParse (.decoded (.obj [("clicksReceived", .float "1e+21" none)]))
      staleDisplay).display.textContent .clicksReceived = "1e+21" ∧
    (loadMetrics noParse (.decoded (.obj [("clicksReceived", .float "1e+21" none)]))
      staleDisplay).display.textContent .clicksReceived ≠ "1000000000000000000000" := by
  decide

/-- C4, amended. For every decoded snapshot object whose render completes
(raises no exception) and every prior page, each of the six counter elements
shows the decimal integer string of the same-named field when that field is a
non-negative safe integer (below `2^53`, where a double holds the integer
exactly), and `0` when the field is absent or null. -/
theorem counters_shown (parse : String → Option Int) (prior : Display)
    (fields : List (String × JSVal))
    (hdone : (render parse (.obj fields) prior).2 = none)
    (c : Target) (hc : c.isCounter = true) :
    (∀ n : SafeInteger, 0 ≤ n.val → field fields c.id = .num n →
      (loadMetrics parse (.decoded (.obj fields)) prior).display.textContent c
        = toString n.val) ∧
    (field fields c.id = .undefined ∨ field fields c.id = .null →
      (loadMetrics parse (.decoded (.obj fields)) prior).display.textContent c = "0") := by
  have h := (render_none parse fields prior hdone).1 c hc
  rw [counterText_obj] at h
  rw [(loadMetrics_decoded parse (.obj fields) prior).1]
  constructor
  · intro n _ hf
    rw [hf] at h
    have e : textOf (nullishOr (.num n) (.num SafeInteger.zero)) =
        .ok (numberToString n.val) := rfl
    rw [e] at h
    rw [← Except.ok.inj h, numberToString_small]
  · intro hf
    have e : textOf (nullishOr (field fields c.id) (.num SafeInteger.zero)) = .ok "0" := by
      rcases hf with hf | hf <;> rw [hf] <;> rfl
    rw [e] at h
    exact (Except.ok.inj h).symm

theorem counters_shown_witness :
    ((render noParse (.obj [("clicksReceived", .num ⟨42, by decide⟩)]) staleDisplay).2 = none ∧
      Target.isCounter .clicksReceived = true ∧ (0 : Int) ≤ 42 ∧
      field [("clicksReceived", .num ⟨42, by decide⟩)] (Target.id .clicksReceived) =
        .num ⟨42, by decide⟩) ∧
    (loadMetrics noParse (.decoded (.obj [("clicksReceived", .num ⟨42, by decide⟩)]))
      staleDisplay).display.textContent .clicksReceived = toString (42 : Int) ∧
    (field [("clicksReceived", .num ⟨42, by decide⟩)] (Target.id .pageViewsEmitted) =
        .undefined ∧
      (loadMetrics noParse (.decoded (.obj [("clicksReceived", .num ⟨42, by decide⟩)]))
        staleDisplay).display.textContent .pageViewsEmitted = "0") :=
  ⟨⟨by decide, rfl, by decide, rfl⟩,
    (counters_shown noParse staleDisplay [("clicksReceived", .num ⟨42, by decide⟩)]
      (by decide) .clicksReceived rfl).1 ⟨42, by decide⟩ (by decide) rfl,
    rfl,
    (counters_shown noParse staleDisplay [("clicksReceived", .num ⟨42, by decide⟩)]
      (by decide) .pageViewsEmitted rfl).2 (Or.inl rfl)⟩

/-- C5, as stated, fails: with `lastUpdatedAt` outside the Date range the write
before the table raises a RangeError, and a snapshot whose `joinWatermarks` is
the empty list leaves the one row the table had. -/
theorem table_not_rebuilt_counterexample :
    field [("lastUpdatedAt", .num ⟨8640000000000001, by decide⟩), ("joinWatermarks", .arr [])]
      "joinWatermarks" = .arr [] ∧
    (loadMetrics noParse
      (.decoded (.obj [("lastUpdatedAt", .num ⟨8640000000000001, by decide⟩),
        ("joinWatermarks", .arr [])]))
      staleDisplay).display.joinWatermarkTable = [["stale", "stale", "stale", "stale"]] ∧
    (loadMetrics noParse
      (.decoded (.obj [("lastUpdatedAt", .num ⟨8640000000000001, by decide⟩),
        ("joinWatermarks", .arr [])]))
      staleDisplay).display.joinWatermarkTable.length ≠ 0 ∧
    (loadMetrics noParse
      (.decoded (.obj [("lastUpdatedAt", .num ⟨8640000000000001, by decide⟩),
        ("joinWatermarks", .arr [])]))
      staleDisplay).logged = [.thrown .rangeError] :=
  ⟨rfl, by decide, by decide, by decide⟩

/-- C5, amended. For every prior table content and every snapshot object whose
render completes (no statement before the table code and no row raises an
exception): when `joinWatermarks` is a list of row objects the table afterwards
has exactly one row per entry, the i-th row being the one built from the i-th
entry, and no row of the prior table; when `joinWatermarks` is empty, absent or
null the table has no row. -/
theorem table_rebuilt (parse : String → Option Int) (prior : Display)
    (fields : List (String × JSVal))
    (hdone : (render parse (.obj fields) prior).2 = none) :
    (∀ rows : List (List (String × JSVal)),
      field fields "joinWatermarks" = .arr (rows.map JSVal.obj) →
      (loadMetrics parse (.decoded (.obj fields)) prior).display.joinWatermarkTable.length =
          rows.length ∧
        (loadMetrics parse (.decoded (.obj fields)) prior).display.joinWatermarkTable.map
          Except.ok = rows.map (fun r => buildRow parse (.obj r))) ∧
    (field fields "joinWatermarks" = .arr [] ∨ field fields "joinWatermarks" = .undefined ∨
        field fields "joinWatermarks" = .null →
      (loadMetrics parse (.decoded (.obj fields)) prior).display.joinWatermarkTable = []) := by
  obtain ⟨_, _, xs, hxs, htab⟩ := render_none parse fields prior hdone
  rw [(loadMetrics_decoded parse (.obj fields) prior).1]
  constructor
  · intro rows hrows
    have hjw : logicalOr (field fields "joinWatermarks") (.arr []) = .arr (rows.map JSVal.obj) := by
      rw [hrows]
      rfl
    rw [hjw] at hxs
    have hx : xs = rows.map JSVal.obj := (JSVal.arr.inj hxs).symm
    rw [hx, List.map_map] at htab
    refine ⟨?_, htab⟩
    have hl := congrArg List.length htab
    simpa using hl
  · intro hempty
    have hjw : logicalOr (field fields "joinWatermarks") (.arr []) = .arr [] := by
      rcases hempty with h | h | h <;> rw [h] <;> rfl
    rw [hjw] at hxs
    have hx : xs = [] := (JSVal.arr.inj hxs).symm
    rw [hx] at htab
    simpa using htab

theorem table_rebuilt_witness :
    (render noParse (.obj [("joinWatermarks", .arr [.obj [("partition", .str "p0")]])])
      staleDisplay).2 = none ∧
    (loadMetrics noParse
      (.decoded (.obj [("joinWatermarks", .arr [.obj [("partition", .str "p0")]])]))
      staleDisplay).display.joinWatermarkTable.length = 1 ∧
    (loadMetrics noParse
      (.decoded (.obj [("joinWatermarks", .arr [.obj [("partition", .str "p0")]])]))
      staleDisplay).display.joinWatermarkTable.map Except.ok =
        [buildRow noParse (.obj [("partition", .str "p0")])] :=
  ⟨by decide,
    (table_rebuilt noParse staleDisplay
      [("joinWatermarks", .arr [.obj [("partition", .str "p0")]])] (by decide)).1
      [[("partition", .str "p0")]] rfl⟩

/-- C6, as stated, fails: the partition `0` is falsy and its cell shows `0`, and
the empty string is falsy and its cell is empty; neither shows `—`. -/
theorem partition_zero_counterexample :
    JSVal.truthy (.num SafeInteger.zero) = false ∧
    buildRow noParse (.obj [("partition", .num SafeInteger.zero)]) = .ok ["0", "—", "—", "—"] ∧
    JSVal.truthy (.str "") = false ∧
    buildRow noParse (.obj [("partition", .str "")]) = .ok ["", "—", "—", "—"] := by
  decide

/-- C6, amended. For every watermark row object for which a table row is built
(none of its four cells raises, which is always so when the four fields are
primitives), the first cell of the row shows `—` when `partition` is absent or
null, and otherwise the string of the partition: a string as it is (the empty
string included) and a safe integer in decimal (`0` for the number 0). -/
theorem partition_cell (parse : String → Option Int) (fields : List (String × JSVal)) :
    ((field fields "partition").isPrimitive = true →
      (field fields "pageViewsMaxEventTime").isPrimitive = true →
      (field fields "adClicksMaxEventTime").isPrimitive = true →
      (field fields "joinWatermark").isPrimitive = true →
      ∃ row, buildRow parse (.obj fields) = .ok row) ∧
    (∀ row : List String, buildRow parse (.obj fields) = .ok row →
      ∃ (first : String) (rest : List String), row = first :: rest ∧
        (field fields "partition" = .undefined ∨ field fields "partition" = .null →
          first = "—") ∧
        ((field fields "partition").isNullish = false →
          (field fields "partition").toStr = .ok first) ∧
        (∀ s : String, field fields "partition" = .str s → first = s) ∧
        (∀ n : SafeInteger, field fields "partition" = .num n → first = toString n.val)) := by
  refine ⟨buildRow_primitive parse fields, ?_⟩
  intro row hrow
  obtain ⟨c1, c2, c3, c4, h1, _, _, _, rfl⟩ := (buildRow_ok_iff parse fields row).mp hrow
  rw [cell_eq] at h1
  refine ⟨c1, [c2, c3, c4], rfl, ?_, ?_, ?_, ?_⟩
  · intro hp
    have hn : (field fields "partition").isNullish = true := by
      rcases hp with hp | hp <;> rw [hp] <;> rfl
    rw [hn] at h1
    exact (Except.ok.inj h1).symm
  · intro hn
    rw [hn] at h1
    simpa using h1
  · intro s hs
    rw [hs] at h1
    exact (Except.ok.inj h1).symm
  · intro n hn
    rw [hn] at h1
    have e : (if (JSVal.num n).isNullish = true then (Except.ok "—" : Except JSError String)
        else (JSVal.num n).toStr) = .ok (numberToString n.val) := rfl
    rw [e] at h1
    rw [← Except.ok.inj h1, numberToString_small]

theorem partition_cell_witness :
    buildRow noParse (.obj [("partition", .str "p0")]) = .ok ["p0", "—", "—", "—"] ∧
    field [("partition", .str "p0")] "partition" = .str "p0" ∧
    ∃ (first : String) (rest : List String), ["p0", "—", "—", "—"] = first :: rest ∧
      first = "p0" :=
  ⟨rfl, rfl,
    ((partition_cell noParse [("partition", .str "p0")]).2 ["p0", "—", "—", "—"] rfl).elim
      (fun first h => h.elim (fun rest h2 => ⟨first, rest, h2.1, h2.2.2.2.1 "p0" rfl⟩))⟩

/-- C7. For every watermark row, the rendered table row has exactly four cells,
and its second, third and fourth cells are what `formatTimestamp` returns for
`pageViewsMaxEventTime`, `adClicksMaxEventTime` and `joinWatermark`, each on its
own: `—` for a falsy value, the formatted string for a truthy one.  A row is
rendered for every row object whose four fields are primitives; when a field
is an object from which no string can be had, the callback raises a TypeError
and there is no rendered row.  The row `{partition: 'p0',
pageViewsMaxEventTime: t, adClicksMaxEventTime: null, joinWatermark: null}` is
`['p0', formatTimestamp(t), '—', '—']`. -/
theorem timestamp_cells (parse : String → Option Int) (fields : List (String × JSVal))
    (t : JSVal) :
    ((field fields "partition").isPrimitive = true →
      (field fields "pageViewsMaxEventTime").isPrimitive = true →
      (field fields "adClicksMaxEventTime").isPrimitive = true →
      (field fields "joinWatermark").isPrimitive = true →
      ∃ row, buildRow parse (.obj fields) = .ok row) ∧
    (∀ row : List String, buildRow parse (.obj fields) = .ok row →
      ∃ first c2 c3 c4 : String, row = [first, c2, c3, c4] ∧
        formatTimestamp parse (field fields "pageViewsMaxEventTime") = .ok c2 ∧
        formatTimestamp parse (field fields "adClicksMaxEventTime") = .ok c3 ∧
        formatTimestamp parse (field fields "joinWatermark") = .ok c4) ∧
    (∀ x : JSVal, x.truthy = false → formatTimestamp parse x = .ok "—") ∧
    buildRow parse (.obj [("partition", .str "p0"), ("pageViewsMaxEventTime", t),
      ("adClicksMaxEventTime", .null), ("joinWatermark", .null)]) =
        (formatTimestamp parse t).map (fun s => ["p0", s, "—", "—"]) := by
  refine ⟨buildRow_primitive parse fields, ?_, formatTimestamp_falsy_aux parse, ?_⟩
  · intro row hrow
    obtain ⟨c1, c2, c3, c4, _, h2, h3, h4, rfl⟩ := (buildRow_ok_iff parse fields row).mp hrow
    exact ⟨c1, c2, c3, c4, rfl, h2, h3, h4⟩
  · rw [buildRow_obj]
    show (Except.ok "p0" : Except JSError String).bind (fun c1 =>
      (formatTimestamp parse t).bind fun c2 =>
      (formatTimestamp parse .null).bind fun c3 =>
      (formatTimestamp parse .null).bind fun c4 => .ok [c1, c2, c3, c4]) = _
    cases formatTimestamp parse t with
    | error e => rfl
    | ok s => rfl

theorem timestamp_cells_witness :
    (field [("partition", .str "p0"), ("pageViewsMaxEventTime", .num ⟨1705309503000, by decide⟩)]
      "pageViewsMaxEventTime").isPrimitive = true ∧
    buildRow noParse (.obj [("partition", .str "p0"),
      ("pageViewsMaxEventTime", .num ⟨1705309503000, by decide⟩)]) =
        .ok ["p0", "2024-01-15 09:05:03", "—", "—"] ∧
    ∃ first c2 c3 c4 : String, ["p0", "2024-01-15 09:05:03", "—", "—"] = [first, c2, c3, c4] ∧
      formatTimestamp noParse (field [("partition", .str "p0"),
        ("pageViewsMaxEventTime", .num ⟨1705309503000, by decide⟩)] "pageViewsMaxEventTime")
        = .ok c2 :=
  ⟨rfl, by decide,
    ((timestamp_cells noParse [("partition", .str "p0"),
      ("pageViewsMaxEventTime", .num ⟨1705309503000, by decide⟩)] .null).2.1
      ["p0", "2024-01-15 09:05:03", "—", "—"] (by decide)).elim
      (fun first h => h.elim (fun c2 h2 => h2.elim (fun c3 h3 => h3.elim (fun c4 h4 =>
        ⟨first, c2, c3, c4, h4.1, h4.2.1⟩))))⟩

theorem lastUpdatedText_obj (parse : String → Option Int) (fields : List (String × JSVal)) :
    lastUpdatedText parse (.obj fields) =
      if (field fields "lastUpdatedAt").truthy then
        (match newDate parse (field fields "lastUpdatedAt") with
          | .error e => (.error e : Except JSError String)
          | .ok d => toISOString d)
      else .ok placeholder := rfl

/-- C8, as stated, fails: `lastUpdatedAt = 0` is a present epoch-millisecond
value whose ISO-8601 string is `1970-01-01T00:00:00.000Z`, and the element
shows `—`. -/
theorem lastUpdated_zero_counterexample :
    field [("lastUpdatedAt", .num SafeInteger.zero)] "lastUpdatedAt" = .num SafeInteger.zero ∧
    toISOString (some 0) = .ok "1970-01-01T00:00:00.000Z" ∧
    newDate noParse (.num SafeInteger.zero) = .ok (some 0) ∧
    (loadMetrics noParse (.decoded (.obj [("lastUpdatedAt", .num SafeInteger.zero)]))
      staleDisplay).display.textContent .lastUpdatedAt = "—" ∧
    (loadMetrics noParse (.decoded (.obj [("lastUpdatedAt", .num SafeInteger.zero)]))
      staleDisplay).logged = [] :=
  ⟨rfl, by decide, by decide, by decide, by decide⟩

/-- C8, amended. For every decoded snapshot object whose six counter fields are
primitives (so that the counter writes, which come first, raise nothing), the
`lastUpdatedAt` element shows `—` when the field is falsy (absent, null, or the
number 0), and for every non-zero epoch-millisecond value in the Date range it
shows the ISO-8601 UTC instant string of that instant (not the
`formatTimestamp` form): `YYYY-MM-DDTHH:MM:SS.sssZ`, 24 characters, for the
years 0 to 9999 and the expanded year `±YYYYYY` outside them. -/
theorem lastUpdated_shown (parse : String → Option Int) (prior : Display)
    (fields : List (String × JSVal))
    (hc : ∀ c : Target, c.isCounter = true → (field fields c.id).isPrimitive = true) :
    ((field fields "lastUpdatedAt").truthy = false →
      (loadMetrics parse (.decoded (.obj fields)) prior).display.textContent .lastUpdatedAt
        = "—") ∧
    (∀ n : SafeInteger, field fields "lastUpdatedAt" = .num n → n.val ≠ 0 →
      -8640000000000000 ≤ n.val → n.val ≤ 8640000000000000 →
      ∃ (f : UTCFields) (ms : Int), f.IsOf n.val ∧ n.val = f.startMs + ms ∧
        (loadMetrics parse (.decoded (.obj fields)) prior).display.textContent .lastUpdatedAt
          = f.isoText ms ∧
        (-62167219200000 ≤ n.val → n.val ≤ 253402300799999 →
          (f.isoText ms).length = 24 ∧ matchesLayout isoLayout (f.isoText ms).data = true)) := by
  have hw := writeCounters_ok (.obj fields) prior
    (fun c hcc => counterText_primitive fields c (hc c hcc))
  rw [(loadMetrics_decoded parse (.obj fields) prior).1]
  constructor
  · intro h
    apply render_lastUpdated parse (.obj fields) prior _ hw
    rw [lastUpdatedText_obj]
    rw [h]
    rfl
  · intro n hn h0 hlo hhi
    have hiso := toISOString_some n.val hlo hhi
    refine ⟨dateFields n.val, msFromTime n.val, dateFields_isOf n.val, hiso.2, ?_, ?_⟩
    · apply render_lastUpdated parse (.obj fields) prior _ hw
      rw [lastUpdatedText_obj]
      rw [hn]
      have ht : (JSVal.num n).truthy = true := by simp [JSVal.truthy, h0]
      rw [ht, if_pos rfl]
      show toISOString (TimeClip (some n.val)) = _
      rw [TimeClip_some n.val hlo hhi]
      exact hiso.1
    · intro h1 h2
      exact isoText_layout (dateFields n.val) (msFromTime n.val) (dateFields_isOf n.val).1
        (YearFromTime_iso_digits n.val h1 h2)

theorem lastUpdated_shown_witness :
    ((∀ c : Target, c.isCounter = true →
        (field [("lastUpdatedAt", .num ⟨1705309503000, by decide⟩)] c.id).isPrimitive = true) ∧
      field [("lastUpdatedAt", .num ⟨1705309503000, by decide⟩)] "lastUpdatedAt" =
        .num ⟨1705309503000, by decide⟩ ∧
      (1705309503000 : Int) ≠ 0 ∧ (-8640000000000000 : Int) ≤ 1705309503000 ∧
      (1705309503000 : Int) ≤ 8640000000000000) ∧
    (∃ (f : UTCFields) (ms : Int), f.IsOf 1705309503000 ∧ 1705309503000 = f.startMs + ms ∧
      (loadMetrics noParse (.decoded (.obj [("lastUpdatedAt", .num ⟨1705309503000, by decide⟩)]))
        staleDisplay).display.textContent .lastUpdatedAt = f.isoText ms ∧
      (-62167219200000 ≤ (1705309503000 : Int) → (1705309503000 : Int) ≤ 253402300799999 →
        (f.isoText ms).length = 24 ∧ matchesLayout isoLayout (f.isoText ms).data = true)) ∧
    (loadMetrics noParse (.decoded (.obj [("lastUpdatedAt", .num ⟨1705309503000, by decide⟩)]))
      staleDisplay).display.textContent .lastUpdatedAt = "2024-01-15T09:05:03.000Z" ∧
    (field [("lastUpdatedAt", .null)] "lastUpdatedAt").truthy = false ∧
    (loadMetrics noParse (.decoded (.obj [("lastUpdatedAt", .null)]))
      staleDisplay).display.textContent .lastUpdatedAt = "—" :=
  ⟨⟨fun c _ => by cases c <;> rfl, rfl, by decide, by decide, by decide⟩,
    (lastUpdated_shown noParse staleDisplay
      [("lastUpdatedAt", .num ⟨1705309503000, by decide⟩)]
      (fun c _ => by cases c <;> rfl)).2
      ⟨1705309503000, by decide⟩ rfl (by decide) (by decide) (by decide),
    by decide, rfl,
    (lastUpdated_shown noParse staleDisplay [("lastUpdatedAt", .null)]
      (fun c _ => by cases c <;> rfl)).1 rfl⟩

/-- C9. For every prior page, if the fetch of `/metrics` fails or its response
cannot be decoded as JSON, then after the `loadMetrics` cycle the page is what it
was before (the six counters, the `lastUpdatedAt` element and the table rows),
the failure is logged, and the promise of the cycle is not rejected. -/
theorem fetch_failure_keeps_display (parse : String → Option Int) (prior : Display) :
    (loadMetrics parse .fetchRejected prior).display = prior ∧
    (loadMetrics parse .fetchRejected prior).logged = [.fetchFailed] ∧
    (loadMetrics parse .fetchRejected prior).rejection = none ∧
    (loadMetrics parse .jsonRejected prior).display = prior ∧
    (loadMetrics parse .jsonRejected prior).logged = [.decodeFailed] ∧
    (loadMetrics parse .jsonRejected prior).rejection = none :=
  ⟨rfl, rfl, rfl, rfl, rfl, rfl⟩

/-- C10, as stated, fails.  The snapshot
`{clicksReceived: 42, lastUpdatedAt: 8640000000000001, joinWatermarks: []}`
decodes and matches the payload shape; rendering it raises a RangeError after
the counters are written, so the cycle ends with `clicksReceived` showing the
new `42` and `lastUpdatedAt` and the table left as they were.  The snapshot
`{joinWatermarks: [{partition: 'p0'}, null]}` raises a TypeError at its second
entry and leaves the table with the first row only. -/
theorem cycle_not_atomic_counterexample :
    (render noParse (.obj [("clicksReceived", .num ⟨42, by decide⟩),
      ("lastUpdatedAt", .num ⟨8640000000000001, by decide⟩),
      ("joinWatermarks", .arr [])]) staleDisplay).2 = some .rangeError ∧
    (loadMetrics noParse (.decoded (.obj [("clicksReceived", .num ⟨42, by decide⟩),
      ("lastUpdatedAt", .num ⟨8640000000000001, by decide⟩), ("joinWatermarks", .arr [])]))
      staleDisplay).display.textContent .clicksReceived = "42" ∧
    (loadMetrics noParse (.decoded (.obj [("clicksReceived", .num ⟨42, by decide⟩),
      ("lastUpdatedAt", .num ⟨8640000000000001, by decide⟩), ("joinWatermarks", .arr [])]))
      staleDisplay).display.textContent .lastUpdatedAt = "stale" ∧
    (loadMetrics noParse (.decoded (.obj [("clicksReceived", .num ⟨42, by decide⟩),
      ("lastUpdatedAt", .num ⟨8640000000000001, by decide⟩), ("joinWatermarks", .arr [])]))
      staleDisplay).display.joinWatermarkTable = [["stale", "stale", "stale", "stale"]] ∧
    (render noParse (.obj [("joinWatermarks", .arr [.obj [("partition", .str "p0")], .null])])
      staleDisplay).2 = some .typeError ∧
    (loadMetrics noParse (.decoded (.obj [("joinWatermarks",
      .arr [.obj [("partition", .str "p0")], .null])]))
      staleDisplay).display.joinWatermarkTable = [["p0", "—", "—", "—"]] := by
  decide

/-- C10, amended. For every prior page and every decoded snapshot object whose
six counter fields are primitives, whose `lastUpdatedAt` is falsy or converts
to a valid Date, and whose `joinWatermarks` is falsy or an array of row objects
with primitive fields, rendering raises no error and one
`loadMetrics` cycle leaves every target showing the projection of that
snapshot, whatever the page showed before: each counter the string of its field
(or `0`), the `lastUpdatedAt` element the text computed from the field, and the
table one row per entry, in order; nothing is logged. -/
theorem cycle_projects_snapshot (parse : String → Option Int) (prior : Display)
    (fields : List (String × JSVal)) (rows : List (List (String × JSVal)))
    (hc : ∀ c : Target, c.isCounter = true → (field fields c.id).isPrimitive = true)
    (hlu : (field fields "lastUpdatedAt").truthy = false ∨
      ∃ t : Int, newDate parse (field fields "lastUpdatedAt") = .ok (some t))
    (hjw : field fields "joinWatermarks" = .arr (rows.map JSVal.obj) ∨
      ((field fields "joinWatermarks").truthy = false ∧ rows = []))
    (hrows : ∀ r ∈ rows, (field r "partition").isPrimitive = true ∧
      (field r "pageViewsMaxEventTime").isPrimitive = true ∧
      (field r "adClicksMaxEventTime").isPrimitive = true ∧
      (field r "joinWatermark").isPrimitive = true) :
    (render parse (.obj fields) prior).2 = none ∧
    (loadMetrics parse (.decoded (.obj fields)) prior).logged = [] ∧
    (loadMetrics parse (.decoded (.obj fields)) prior).rejection = none ∧
    (∀ c : Target, c.isCounter = true →
      textOf (nullishOr (field fields c.id) (.num SafeInteger.zero)) =
        .ok ((loadMetrics parse (.decoded (.obj fields)) prior).display.textContent c)) ∧
    lastUpdatedText parse (.obj fields) =
      .ok ((loadMetrics parse (.decoded (.obj fields)) prior).display.textContent
        .lastUpdatedAt) ∧
    (loadMetrics parse (.decoded (.obj fields)) prior).display.joinWatermarkTable.length =
      rows.length ∧
    (loadMetrics parse (.decoded (.obj fields)) prior).display.joinWatermarkTable.map
      Except.ok = rows.map (fun r => buildRow parse (.obj r)) := by
  have hs : ∃ s, lastUpdatedText parse (.obj fields) = .ok s := by
    rw [lastUpdatedText_obj]
    cases ht : (field fields "lastUpdatedAt").truthy with
    | false => exact ⟨_, rfl⟩
    | true =>
      rw [ht] at hlu
      rcases hlu with h | ⟨t, h⟩
      · exact absurd h (by decide)
      · rw [h]
        exact ⟨_, rfl⟩
  have hor : logicalOr (field fields "joinWatermarks") (.arr []) = .arr (rows.map JSVal.obj) := by
    rcases hjw with h | ⟨h, rfl⟩
    · rw [h]
      rfl
    · unfold logicalOr
      rw [h]
      rfl
  have hbuild : ∀ x ∈ rows.map JSVal.obj, ∃ row, buildRow parse x = .ok row := by
    intro x hx
    obtain ⟨r, hr, rfl⟩ := List.mem_map.mp hx
    obtain ⟨p1, p2, p3, p4⟩ := hrows r hr
    exact buildRow_primitive parse r p1 p2 p3 p4
  have hdone := render_ok parse fields prior _
    (fun c hcc => counterText_primitive fields c (hc c hcc)) hs hor hbuild
  obtain ⟨h1, h2, xs, hxs, htab⟩ := render_none parse fields prior hdone
  obtain ⟨e1, e2, e3⟩ := loadMetrics_decoded parse (.obj fields) prior
  rw [hor] at hxs
  have hx : xs = rows.map JSVal.obj := (JSVal.arr.inj hxs).symm
  rw [hx, List.map_map] at htab
  rw [e1]
  refine ⟨hdone, e3 hdone, e2, ?_, h2, ?_, htab⟩
  · intro c hcc
    rw [← counterText_obj]
    exact h1 c hcc
  · have hl := congrArg List.length htab
    simpa using hl

theorem cycle_projects_snapshot_witness :
    ((field [("clicksReceived", .num ⟨42, by decide⟩),
        ("joinWatermarks", .arr [.obj [("partition", .str "p0")]])] "lastUpdatedAt").truthy
        = false ∧
      field [("clicksReceived", .num ⟨42, by decide⟩),
        ("joinWatermarks", .arr [.obj [("partition", .str "p0")]])] "joinWatermarks" =
        .arr ([[("partition", JSVal.str "p0")]].map JSVal.obj)) ∧
    (loadMetrics noParse (.decoded (.obj [("clicksReceived", .num ⟨42, by decide⟩),
      ("joinWatermarks", .arr [.obj [("partition", .str "p0")]])])) staleDisplay).logged = [] ∧
    (loadMetrics noParse (.decoded (.obj [("clicksReceived", .num ⟨42, by decide⟩),
      ("joinWatermarks", .arr [.obj [("partition", .str "p0")]])]))
      staleDisplay).display.joinWatermarkTable.map Except.ok =
        [[("partition", JSVal.str "p0")]].map (fun r => buildRow noParse (.obj r)) :=
  have h := cycle_projects_snapshot noParse staleDisplay
    [("clicksReceived", .num ⟨42, by decide⟩),
      ("joinWatermarks", .arr [.obj [("partition", .str "p0")]])]
    [[("partition", .str "p0")]] (fun c _ => by cases c <;> rfl) (Or.inl rfl) (Or.inl rfl)
    (fun r hr => by
      rw [List.mem_singleton] at hr
      rw [hr]
      exact ⟨rfl, rfl, rfl, rfl⟩)
  ⟨⟨rfl, rfl⟩, h.2.1, h.2.2.2.2.2.2⟩

end Dashboard
